import Mathlib

/-!
# TRRojan benchmark harness: configurations, result sets and the runner

A shallow embedding of the core of the TRRojan benchmark harness
(`trrojancore`): `configuration`, `result_set` consistency checking,
`merge_results`, `benchmark_base::run` with its required-factor check, range
factors and the equality of factors.

C++ exceptions are modelled by `Except exception`; vectors by lists; a
`std::shared_ptr` that may be `nullptr` by `Option`.
-/

namespace trrojan

/-- The exceptions that the sources throw, each with its message: the classes
of the standard library, all derived from `std::exception`, and
`ATL::CAtlException` (thrown in `device.cpp` of the Direct3D 12 plugin), which
is not derived from `std::exception`. `configuration_error` stands for the
configuration error that the specification attributes to code that is not part
of the sources. -/
inductive exception where
  | runtime_error (what : String)
  | invalid_argument (what : String)
  | range_error (what : String)
  | logic_error (what : String)
  | out_of_range (what : String)
  | configuration_error (what : String)
  | atl_exception (hr : Int)
deriving DecidableEq

/-- Whether a handler `catch (const std::exception&)` matches the exception. -/
def exception.is_std : exception → Bool
  | .atl_exception _ => false
  | _ => true

/-- Modelled from the spec: the type-erased value `trrojan::variant`
(`variant.h` is not part of the sources). A closed sum over the supported
kinds: boolean, integer, floating point (carried as its bit pattern), string,
and handles to environment and device objects. -/
inductive variant where
  | empty
  | boolean (b : Bool)
  | integer (i : Int)
  | floating (bits : Nat)
  | string (s : String)
  | environment (handle : Nat)
  | device (handle : Nat)
deriving DecidableEq

/-- A `named_variant`: one `(name, value)` entry of a configuration. -/
structure named_variant where
  name : String
  value : variant
deriving DecidableEq

/-- A `trrojan::configuration`: the vector `_factors` of named variants. -/
structure configuration where
  _factors : List named_variant
deriving DecidableEq

/-- The function `configuration::find` (configuration.cpp, 45-49):
`std::find_if` over `_factors` for the first entry whose name equals `factor`.
Iterators are positions; the end iterator is the length of `_factors`. -/
def configuration.find (self : configuration) (factor : String) : Nat :=
  self._factors.findIdx (fun v => v.name == factor)

/-- The end iterator `_factors.cend()`. -/
def configuration.cend (self : configuration) : Nat :=
  self._factors.length

/-- Modelled from the spec: `configuration::contains` is declared in
`configuration.h`, which is not part of the sources; it answers whether
`find` locates an entry with the given name. -/
def configuration.contains (self : configuration) (factor : String) : Bool :=
  self.find factor != self.cend

/-- The loop of `configuration::check_consistency` (configuration.cpp, 33-38):
for every entry `l` of the left-hand side, throw if `other.contains(l.name())`. -/
def configuration.check_consistency.loop (other : configuration) :
    List named_variant → Except exception Unit
  | [] => .ok ()
  | l :: rest =>
    if other.contains l.name then
      .error (.runtime_error "The configurations contain different factors.")
    else
      configuration.check_consistency.loop other rest

/-- The function `configuration::check_consistency` (configuration.cpp, 27-39). -/
def configuration.check_consistency (self other : configuration) :
    Except exception Unit :=
  if self._factors.length ≠ other._factors.length then
    .error (.runtime_error
      "The configurations contain a different number of factors.")
  else
    configuration.check_consistency.loop other self._factors

/-- The set of factor names of a configuration, as a list. -/
def configuration.names (self : configuration) : List String :=
  self._factors.map (fun v => v.name)

/-- Modelled from the spec: `basic_result` (`result.h` is not part of the
sources) pairs a configuration with measured output values. -/
structure basic_result where
  _configuration : configuration
  _values : List variant
deriving DecidableEq

/-- Modelled from the spec: `basic_result::check_consistency` (`result.h` is
not part of the sources) is the pairwise check between the configurations of
the two results. -/
def basic_result.check_consistency (self other : basic_result) :
    Except exception Unit :=
  self._configuration.check_consistency other._configuration

/-- A `trrojan::result` is a shared pointer to a `basic_result`; `none` is
`nullptr`. -/
abbrev result := Option basic_result

/-- A `trrojan::result_set` is a vector of results. -/
abbrev result_set := List result

/-- The loop of `benchmark_base::check_consistency` (benchmark.cpp, 32-39) over
the elements after the first. -/
def benchmark_base.check_consistency.loop (reference : basic_result) :
    List result → Except exception Unit
  | [] => .ok ()
  | none :: _ =>
    .error (.invalid_argument "A result_set must not contain nullptr elements.")
  | some element :: rest =>
    match reference.check_consistency element with
    | .error e => .error e
    | .ok () => benchmark_base.check_consistency.loop reference rest

/-- The function `benchmark_base::check_consistency` (benchmark.cpp, 23-41). -/
def benchmark_base.check_consistency (rs : result_set) : Except exception Unit :=
  if rs.length > 1 then
    match rs with
    | [] => .ok ()
    | none :: _ =>
      .error (.invalid_argument "A result_set must not contain nullptr elements.")
    | some reference :: rest =>
      benchmark_base.check_consistency.loop reference rest
  else
    .ok ()

/-- The copying overload of `benchmark_base::merge_results` (benchmark.cpp,
47-51): `l.insert(l.end(), r.cbegin(), r.cend())`. The value is the new `l`. -/
def benchmark_base.merge_results (l r : result_set) : result_set :=
  l ++ r

/-- The moving overload of `benchmark_base::merge_results` (benchmark.cpp,
57-62): every element of `r` is pushed to the back of `l` in turn. The value is
the new `l`. -/
def benchmark_base.merge_results_move (l : result_set) : result_set → result_set
  | [] => l
  | e :: rest => benchmark_base.merge_results_move (l ++ [e]) rest

/-! ## Factors, configuration sets and the runner -/

/-- Modelled from the spec: a factor as seen through the interface of
`factor_base` (`factor.h` is not part of the sources): its `name()` and the
ordered sequence of manifestations that `operator []` yields for the indices
below `size()`. -/
structure factor where
  name : String
  manifestations : List variant
deriving DecidableEq

/-- The number of manifestations, `factor::size`; `0` marks a required factor. -/
def factor.size (self : factor) : Nat :=
  self.manifestations.length

/-- Modelled from the spec: a `configuration_set` (`configuration_set.h` is not
part of the sources) is the collection of its factors, in insertion order. -/
structure configuration_set where
  _factors : List factor
deriving DecidableEq

/-- The accessor `configuration_set::factors`. -/
def configuration_set.factors (self : configuration_set) : List factor :=
  self._factors

/-- Modelled from the spec: `configuration_set::contains_factor(name)` answers
whether the set holds a factor of that name. -/
def configuration_set.contains_factor (self : configuration_set) (name : String) :
    Bool :=
  self._factors.any (fun f => f.name == name)

/-- One step of `configuration_set::merge`: a factor of `other` that is absent
is added; one that is present replaces the existing factor when `overwrite` is
set, and otherwise the existing one wins. -/
def configuration_set.merge.step (overwrite : Bool) (acc : List factor)
    (f : factor) : List factor :=
  if acc.any (fun g => g.name == f.name) then
    if overwrite then acc.map (fun g => if g.name == f.name then f else g)
    else acc
  else
    acc ++ [f]

/-- Modelled from the spec: `configuration_set::merge(other, overwrite)`
(`configuration_set.h` is not part of the sources): for every factor present in
`other` but absent in this set, add it; if `overwrite` is true a factor with
the same name in `other` replaces the existing one, otherwise the existing one
wins. -/
def configuration_set.merge (self other : configuration_set) (overwrite : Bool) :
    configuration_set :=
  ⟨other._factors.foldl (configuration_set.merge.step overwrite) self._factors⟩

/-- Modelled from the spec: the cross-product of the factor domains in the
fixed nesting of `foreach_configuration`: the last-inserted factor varies
fastest. -/
def configuration_set.enumerate : List factor → List configuration
  | [] => [⟨[]⟩]
  | f :: rest =>
    f.manifestations.flatMap (fun v =>
      (configuration_set.enumerate rest).map
        (fun c => ⟨⟨f.name, v⟩ :: c._factors⟩))

/-- Modelled from the spec: the traversal of `foreach_configuration`: `visit`
is invoked on each generated configuration in turn; returning `false` aborts
the entire remaining traversal, returning `true` continues. An exception that
leaves `visit` leaves the traversal. The first component of the value tells
whether the traversal ran to its end. -/
def configuration_set.foreach_configuration.loop {S : Type}
    (visit : S → configuration → Except exception (Bool × S)) :
    List configuration → S → Except exception (Bool × S)
  | [], s => .ok (true, s)
  | c :: rest, s =>
    match visit s c with
    | .error ex => .error ex
    | .ok (true, s1) => configuration_set.foreach_configuration.loop visit rest s1
    | .ok (false, s1) => .ok (false, s1)

/-- Modelled from the spec: `configuration_set::foreach_configuration(visit)`
(`configuration_set.h` is not part of the sources): a set that still holds a
factor with `size() == 0` fails with a configuration error before `visit` is
invoked at all; otherwise the cross-product is traversed. The callback works
on the state `S` that the C++ closure captures by reference. -/
def configuration_set.foreach_configuration {S : Type} (self : configuration_set)
    (visit : S → configuration → Except exception (Bool × S)) (s : S) :
    Except exception S :=
  if self._factors.any (fun f => f.size == 0) then
    .error (.configuration_error "A required factor has no manifestation.")
  else
    Except.map Prod.snd (configuration_set.foreach_configuration.loop visit
      (configuration_set.enumerate self._factors) s)

/-- A handle to an environment object owned by a plugin. -/
abbrev environment := Nat

/-- A handle to a device object owned by a plugin. -/
abbrev device := Nat

/-- The constant `benchmark_base::factor_device` (benchmark.cpp, 68). -/
def benchmark_base.factor_device : String := "device"

/-- The constant `benchmark_base::factor_environment` (benchmark.cpp, 74). -/
def benchmark_base.factor_environment : String := "environment"

/-- Modelled from the spec: `environment_base::factor_name` (`environment.h` is
not part of the sources), the name under which the environment is bound. -/
def environment_base.factor_name : String := benchmark_base.factor_environment

/-- Modelled from the spec: `device_base::factor_name` (`device.h` is not part
of the sources), the name under which the device is bound. -/
def device_base.factor_name : String := benchmark_base.factor_device

/-- Modelled from the spec: `configuration::get<trrojan::environment>(name)`
(`configuration.h` is not part of the sources) fails if `name` is absent or the
stored value is not an environment. -/
def configuration.get_environment (self : configuration) (name : String) :
    Except exception environment :=
  match self._factors[self.find name]? with
  | none => .error (.invalid_argument "The configuration lacks the factor.")
  | some v =>
    match v.value with
    | .environment h => .ok h
    | _ => .error (.invalid_argument "The value is not an environment.")

/-- Modelled from the spec: `configuration::get<trrojan::device>(name)`
(`configuration.h` is not part of the sources) fails if `name` is absent or the
stored value is not a device. -/
def configuration.get_device (self : configuration) (name : String) :
    Except exception device :=
  match self._factors[self.find name]? with
  | none => .error (.invalid_argument "The configuration lacks the factor.")
  | some v =>
    match v.value with
    | .device h => .ok h
    | _ => .error (.invalid_argument "The value is not a device.")

/-- The function `configuration::add_system_factors` (configuration.cpp,
19-21): the factors handed out by the `system_factors` singleton, which is not
part of the sources and is taken as a parameter, are appended to `_factors`. -/
def configuration.add_system_factors (self : configuration)
    (system_factors : List named_variant) : configuration :=
  ⟨self._factors ++ system_factors⟩

/-- Modelled from the spec: the pacing policy `cool_down` (`cool_down.h` is not
part of the sources). Its evaluation before a dispatch may block the calling
thread; it has no effect on the state that is modelled. -/
structure cool_down where
  frequency : Nat
  duration : Nat
deriving DecidableEq

/-- A benchmark: what `benchmark_base::run` uses of a `benchmark_base` object.
The type `W` is the mutable state owned by the benchmark and by the result
callback. `can_run` is the virtual const member; `run` is the virtual
`run(const configuration&)`, which may throw and may change the state. -/
structure benchmark (W : Type) where
  _default_configs : configuration_set
  can_run : W → environment → device → Bool
  run : W → configuration → Except exception result × W

/-- The callback type `on_result_callback`: a `std::function` from a result to
`bool`, which may throw and may change the state it has captured. -/
abbrev on_result_callback (W : Type) := W → result → Except exception Bool × W

/-- What happened during `benchmark_base::run`, in order. -/
inductive event where
  /-- The visit callback was entered with this configuration. -/
  | visited (c : configuration)
  /-- The benchmark's `run(c)` was invoked. -/
  | run_invoked (c : configuration)
  /-- The benchmark's `run(c)` produced a result and the callback was invoked on it. -/
  | sink_invoked (r : result)
  /-- The result callback returned this value. -/
  | sink_returned (continue_ : Bool)
deriving DecidableEq

/-- The state the closure of `benchmark_base::run` works on: the counter
`retval`, the state of benchmark and callback, and the record of events. -/
structure run_state (W : Type) where
  retval : Nat
  world : W
  log : List event

/-- The number of configurations for which the benchmark's `run(c)` was carried
out and produced a result. -/
def run_state.produced {W : Type} (s : run_state W) : Nat :=
  (s.log.filter (fun ev => match ev with | .sink_invoked _ => true | _ => false)).length

/-- The number of results that the result callback took and returned from. -/
def run_state.delivered {W : Type} (s : run_state W) : Nat :=
  (s.log.filter (fun ev => match ev with | .sink_returned _ => true | _ => false)).length

/-- The loop of `benchmark_base::required_factors` (benchmark.cpp, 104-108):
the name of every factor with `size() == 0` is pushed to the back of `retval`. -/
def benchmark_base.required_factors.loop : List factor → List String → List String
  | [], retval => retval
  | f :: rest, retval =>
    if f.size == 0 then
      benchmark_base.required_factors.loop rest (retval ++ [f.name])
    else
      benchmark_base.required_factors.loop rest retval

/-- The function `benchmark_base::required_factors` (benchmark.cpp, 101-111). -/
def benchmark_base.required_factors {W : Type} (self : benchmark W) : List String :=
  benchmark_base.required_factors.loop self._default_configs.factors []

/-- The loop of `benchmark_base::check_required_factors` (benchmark.cpp,
186-195). Here `f` is a name, so `f.size()` is the length of that string. -/
def benchmark_base.check_required_factors.loop (cs : configuration_set) :
    List String → Except exception Unit
  | [] => .ok ()
  | f :: rest =>
    if f.length == 0 && !cs.contains_factor f then
      .error (.invalid_argument
        ("The given configuration_set does not contain the required factor \""
          ++ f ++ "\"."))
    else
      benchmark_base.check_required_factors.loop cs rest

/-- The function `benchmark_base::check_required_factors` (benchmark.cpp,
183-196). -/
def benchmark_base.check_required_factors {W : Type} (self : benchmark W)
    (cs : configuration_set) : Except exception Unit :=
  benchmark_base.check_required_factors.loop cs (benchmark_base.required_factors self)

/-- The handler `catch (const std::exception& ex)` of the visit callback
(benchmark.cpp, 150-153): the exception is logged and the callback returns
`false`; an exception of another type is not caught. -/
def benchmark_base.run.handler {W : Type} (s : run_state W) (ex : exception) :
    Except exception (Bool × run_state W) :=
  if ex.is_std then .ok (false, s) else .error ex

/-- The visit callback of `benchmark_base::run` (benchmark.cpp, 130-154). The
evaluation of the cool-down policy and the log output leave the state
untouched. -/
def benchmark_base.run.visit {W : Type} (self : benchmark W)
    (resultCallback : on_result_callback W) (system_factors : W → List named_variant)
    (s : run_state W) (c : configuration) : Except exception (Bool × run_state W) :=
  let entered := s.log ++ [event.visited c]
  match c.get_environment environment_base.factor_name with
  | .error ex => benchmark_base.run.handler ⟨s.retval, s.world, entered⟩ ex
  | .ok e =>
    match c.get_device device_base.factor_name with
    | .error ex => benchmark_base.run.handler ⟨s.retval, s.world, entered⟩ ex
    | .ok d =>
      if self.can_run s.world e d then
        let c1 := c.add_system_factors (system_factors s.world)
        match self.run s.world c1 with
        | (.error ex, w1) =>
          benchmark_base.run.handler
            ⟨s.retval, w1, entered ++ [event.run_invoked c1]⟩ ex
        | (.ok r, w1) =>
          match resultCallback w1 r with
          | (.error ex, w2) =>
            benchmark_base.run.handler
              ⟨s.retval, w2, entered ++ [event.run_invoked c1, event.sink_invoked r]⟩
              ex
          | (.ok r2, w2) =>
            .ok (r2, ⟨s.retval + 1, w2,
              entered ++ [event.run_invoked c1, event.sink_invoked r,
                event.sink_returned r2]⟩)
      else
        .ok (true, ⟨s.retval, s.world, entered⟩)

/-- The function `benchmark_base::run` (benchmark.cpp, 117-157). The value is
the final state of the closure; its `retval` is what the C++ function returns. -/
def benchmark_base.run {W : Type} (self : benchmark W) (configs : configuration_set)
    (resultCallback : on_result_callback W) (coolDown : cool_down)
    (system_factors : W → List named_variant) (w : W) :
    Except exception (run_state W) :=
  match benchmark_base.check_required_factors self configs with
  | .error e => .error e
  | .ok () =>
    let c := configs.merge self._default_configs false
    let _cde := coolDown
    c.foreach_configuration
      (benchmark_base.run.visit self resultCallback system_factors) ⟨0, w, []⟩

/-! ## The duplicate guard, range factors and factor equality -/

/-- The function `configuration::check_duplicate` (configuration.cpp, 55-62),
the guard that `add` runs first. The member is not `const`: the value pairs
the outcome with the configuration as it is afterwards. -/
def configuration.check_duplicate (self : configuration) (name : String) :
    Except exception Unit × configuration :=
  if self.contains name then
    (.error (.invalid_argument
      ("The configuration already contains a factor named \"" ++ name ++ "\".")),
      self)
  else
    (.ok (), self)

/-- The number of values of `size_t`, the unsigned 64-bit type of the LP64 and
LLP64 data models. -/
def size_t.modulus : Int := 2 ^ 64

/-- The conversion of an integer value to `size_t`: reduction modulo `2 ^ 64`. -/
def size_t.convert (x : Int) : Int :=
  x % size_t.modulus

/-- The expression `this->begin + i * this->step_size` of
`factor_range<T>::operator []` (factor_range.inl, 46) for an integer type `T`,
turned into the variant that is returned. The index `i` is a `size_t`, so by
the usual arithmetic conversions `step_size` and `begin` are converted to
`size_t`, product and sum are computed modulo `2 ^ 64`, and the variant is
built from a `size_t`. -/
def factor_range.integer_value (begin : Int) (i : Nat) (step_size : Int) : variant :=
  .integer (size_t.convert
    (size_t.convert begin + size_t.convert ((i : Int) * size_t.convert step_size)))

/-- The class `factor_range<T>` (its declaration in `factor_range.h` is not
part of the sources): the name inherited from `factor_base` and the members
`begin`, `step_size` and `cnt_steps` that `factor_range.inl` uses. -/
structure factor_range (T : Type) where
  _name : String
  begin : T
  step_size : T
  cnt_steps : Nat

/-- Modelled from the spec: the constructor `factor_range<T>(name, begin,
step_size, cnt_steps)` (`factor_range.h` is not part of the sources) stores its
arguments: a range is defined by `(start, step, count)`. -/
def factor_range.ctor {T : Type} (name : String) (begin step_size : T)
    (cnt_steps : Nat) : factor_range T :=
  ⟨name, begin, step_size, cnt_steps⟩

/-- The accessor `factor_base::name` (factor_base.h, 45-47). -/
def factor_range.name {T : Type} (self : factor_range T) : String :=
  self._name

/-- The function `factor_range<T>::size` (factor_range.inl, 28-31). -/
def factor_range.size {T : Type} (self : factor_range T) : Nat :=
  self.cnt_steps

/-- The function `factor_range<T>::operator []` (factor_range.inl, 37-47). The
parameter `value` is the arithmetic of `T`: what `begin + i * step_size` yields
as a variant; for the integer types it is `factor_range.integer_value`. -/
def factor_range.operator_index {T : Type} (value : T → Nat → T → variant)
    (self : factor_range T) (i : Nat) : Except exception variant :=
  if i ≥ self.size then
    .error (.range_error "The factor does not contain the requested manifestation.")
  else
    .ok (value self.begin i self.step_size)

/-- The function `factor_range<T>::clone` (factor_range.inl, 19-23): a new
range factor constructed from the name and the three members. -/
def factor_range.clone {T : Type} (self : factor_range T) : factor_range T :=
  factor_range.ctor self._name self.begin self.step_size self.cnt_steps

/-- The interface `factor_base` (factor_base.h, 27-102) as a record of what an
object behind it offers: the stored `_name` and the two virtual members
`size()` and `operator []` of whatever kind of factor implements it. -/
structure factor_base where
  _name : String
  size : Nat
  operator_index : Nat → Except exception variant

/-- The operator `factor_base::operator ==` (factor_base.h, 74-76). -/
def factor_base.operator_eq (self rhs : factor_base) : Bool :=
  self._name == rhs._name

/-- The operator `factor_base::operator !=` (factor_base.h, 84-86). -/
def factor_base.operator_ne (self rhs : factor_base) : Bool :=
  !(self.operator_eq rhs)

/-- A range factor seen through the interface `factor_base`. -/
def factor_range.to_base {T : Type} (value : T → Nat → T → variant)
    (self : factor_range T) : factor_base :=
  ⟨self._name, self.size, self.operator_index value⟩

/-- The configurations that `benchmark_base::run` visited, in order. -/
def run_state.visits {W : Type} (s : run_state W) : List configuration :=
  s.log.filterMap (fun ev => match ev with | .visited c => some c | _ => none)

/-- The tuple of values that a configuration binds. -/
def configuration.values (self : configuration) : List variant :=
  self._factors.map (fun v => v.value)

/-! ## Graphics benchmarks: manoeuvres, scalar-type dispatch and texture formats -/

/-- The second level of `volume_raycast_benchmark::dispatch`
(volume_raycast_benchmark.h, 241-274): the source type `S` is fixed, the list
is searched for the target type `t`. The value lists the conversions
`convert_data_precision<S, T>` that were invoked. -/
def opencl.volume_raycast_benchmark.dispatch_target {α : Type} [DecidableEq α]
    (S : α) : List α → α → Except exception (List (α × α))
  | [], _ => .error (.runtime_error "Resolution failed.")
  | T :: Ts, t =>
    if T = t then .ok [(S, T)]
    else opencl.volume_raycast_benchmark.dispatch_target S Ts t

/-- The first level of `volume_raycast_benchmark::dispatch`
(volume_raycast_benchmark.h, 201-234): the list is searched for the source type
`s`; on a match the second level starts over with the whole list
`scalar_type_list`, whose declaration is not part of the sources and which is
taken as a parameter. -/
def opencl.volume_raycast_benchmark.dispatch {α : Type} [DecidableEq α]
    (scalar_type_list : List α) : List α → α → α → Except exception (List (α × α))
  | [], _, _ => .error (.runtime_error "Resolution failed.")
  | S :: Ss, s, t =>
    if S = s then
      opencl.volume_raycast_benchmark.dispatch_target S scalar_type_list t
    else
      opencl.volume_raycast_benchmark.dispatch scalar_type_list Ss s t

/-- The table lookup that the specification names as the design of the
dispatch: one conversion for a pair of supported tags, a failed resolution
otherwise. -/
def opencl.volume_raycast_benchmark.dispatch_lookup {α : Type} [DecidableEq α]
    (L : List α) (s t : α) : Except exception (List (α × α)) :=
  if s ∈ L ∧ t ∈ L then .ok [(s, t)]
  else .error (.runtime_error "Resolution failed.")

/-- The enumeration `datraw::scalar_type` of the datraw library. -/
inductive datraw.scalar_type where
  | raw | int8 | int16 | int32 | int64
  | uint8 | uint16 | uint32 | uint64
  | float16 | float32 | float64
deriving DecidableEq

/-- The members of `DXGI_FORMAT` that `get_format` returns. -/
inductive DXGI_FORMAT where
  | R8_SNORM | R8G8_SNORM | R8G8B8A8_SNORM
  | R16_SNORM | R16G16_SNORM | R16G16B16A16_SNORM
  | R32_SINT | R32G32_SINT | R32G32B32_SINT | R32G32B32A32_SINT
  | R8_UNORM | R8G8_UNORM | R8G8B8A8_UNORM
  | R16_UNORM | R16G16_UNORM | R16G16B16A16_UNORM
  | R32_UINT | R32G32_UINT | R32G32B32_UINT | R32G32B32A32_UINT
  | R16_FLOAT | R16G16_FLOAT | R16G16B16A16_FLOAT
  | R32_FLOAT | R32G32_FLOAT | R32G32B32_FLOAT | R32G32B32A32_FLOAT
deriving DecidableEq

/-- What `get_format` reads of a `datraw::info`: the resolution (one entry per
dimension), the number of components per voxel and the scalar type. -/
structure d3d12.info_type where
  resolution : List Nat
  components : Nat
  format : datraw.scalar_type
deriving DecidableEq

/-- The exception that ends `get_format` when the `switch` yields no format
(volume_benchmark_base.cpp, 124-125). -/
def d3d12.volume_benchmark_base.get_format.unsupported : exception :=
  .invalid_argument "The given scalar data type is unknown or unsupported."

/-- The function `d3d12::volume_benchmark_base::get_format`
(volume_benchmark_base.cpp, 41-126). -/
def d3d12.volume_benchmark_base.get_format (info : d3d12.info_type) :
    Except exception DXGI_FORMAT :=
  if info.resolution.length ≠ 3 then
    .error (.invalid_argument "The given data set is not a 3D volume.")
  else if info.components < 1 ∨ info.components > 4 then
    .error (.invalid_argument
      "The number of per-voxel components of the given data set is not within [1, 4]")
  else
    match info.format, info.components with
    | .int8, 1 => .ok .R8_SNORM
    | .int8, 2 => .ok .R8G8_SNORM
    | .int8, 4 => .ok .R8G8B8A8_SNORM
    | .int16, 1 => .ok .R16_SNORM
    | .int16, 2 => .ok .R16G16_SNORM
    | .int16, 4 => .ok .R16G16B16A16_SNORM
    | .int32, 1 => .ok .R32_SINT
    | .int32, 2 => .ok .R32G32_SINT
    | .int32, 3 => .ok .R32G32B32_SINT
    | .int32, 4 => .ok .R32G32B32A32_SINT
    | .uint8, 1 => .ok .R8_UNORM
    | .uint8, 2 => .ok .R8G8_UNORM
    | .uint8, 4 => .ok .R8G8B8A8_UNORM
    | .uint16, 1 => .ok .R16_UNORM
    | .uint16, 2 => .ok .R16G16_UNORM
    | .uint16, 4 => .ok .R16G16B16A16_UNORM
    | .uint32, 1 => .ok .R32_UINT
    | .uint32, 2 => .ok .R32G32_UINT
    | .uint32, 3 => .ok .R32G32B32_UINT
    | .uint32, 4 => .ok .R32G32B32A32_UINT
    | .float16, 1 => .ok .R16_FLOAT
    | .float16, 2 => .ok .R16G16_FLOAT
    | .float16, 4 => .ok .R16G16B16A16_FLOAT
    | .float32, 1 => .ok .R32_FLOAT
    | .float32, 2 => .ok .R32G32_FLOAT
    | .float32, 3 => .ok .R32G32B32_FLOAT
    | .float32, 4 => .ok .R32G32B32A32_FLOAT
    | _, _ => .error d3d12.volume_benchmark_base.get_format.unsupported

/-- The scalar type and the number of components that a format stands for;
used to state that `get_format` can be inverted. -/
def DXGI_FORMAT.decode : DXGI_FORMAT → datraw.scalar_type × Nat
  | .R8_SNORM => (.int8, 1)
  | .R8G8_SNORM => (.int8, 2)
  | .R8G8B8A8_SNORM => (.int8, 4)
  | .R16_SNORM => (.int16, 1)
  | .R16G16_SNORM => (.int16, 2)
  | .R16G16B16A16_SNORM => (.int16, 4)
  | .R32_SINT => (.int32, 1)
  | .R32G32_SINT => (.int32, 2)
  | .R32G32B32_SINT => (.int32, 3)
  | .R32G32B32A32_SINT => (.int32, 4)
  | .R8_UNORM => (.uint8, 1)
  | .R8G8_UNORM => (.uint8, 2)
  | .R8G8B8A8_UNORM => (.uint8, 4)
  | .R16_UNORM => (.uint16, 1)
  | .R16G16_UNORM => (.uint16, 2)
  | .R16G16B16A16_UNORM => (.uint16, 4)
  | .R32_UINT => (.uint32, 1)
  | .R32G32_UINT => (.uint32, 2)
  | .R32G32B32_UINT => (.uint32, 3)
  | .R32G32B32A32_UINT => (.uint32, 4)
  | .R16_FLOAT => (.float16, 1)
  | .R16G16_FLOAT => (.float16, 2)
  | .R16G16B16A16_FLOAT => (.float16, 4)
  | .R32_FLOAT => (.float32, 1)
  | .R32G32_FLOAT => (.float32, 2)
  | .R32G32B32_FLOAT => (.float32, 3)
  | .R32G32B32A32_FLOAT => (.float32, 4)

/-! ## Direct3D 12 volume benchmarks: cached textures and transfer functions -/

/-- The constant `volume_benchmark_base::factor_data_set`
(volume_benchmark_base.cpp, 24). -/
def d3d12.volume_benchmark_base.factor_data_set : String := "data_set"

/-- The constant `volume_benchmark_base::factor_frame`
(volume_benchmark_base.cpp, 26). -/
def d3d12.volume_benchmark_base.factor_frame : String := "frame"

/-- The constant `volume_benchmark_base::factor_xfer_func`
(volume_benchmark_base.cpp, 33). -/
def d3d12.volume_benchmark_base.factor_xfer_func : String := "xfer_func"

/-- Modelled from the spec: the helper `contains_any(haystack, needles...)`
(its header is not part of the sources) answers whether one of the names
occurs in the changed-set. -/
def contains_any (haystack : List String) (needles : List String) : Bool :=
  needles.any (fun n => decide (n ∈ haystack))

/-- The two textures that `volume_benchmark_base` caches; a texture is a handle
to a resource, `none` is `nullptr`. -/
structure d3d12.volume_benchmark_base where
  _tex_volume : Option Nat
  _tex_xfer_func : Option Nat
deriving DecidableEq

/-- A load that `on_run` performs. -/
inductive d3d12.load_event where
  | volume
  | xfer_func
deriving DecidableEq

/-- The first part of `volume_benchmark_base::on_run`
(volume_benchmark_base.cpp, 360-366): the textures invalidated by the changed
factors are cleared. -/
def d3d12.volume_benchmark_base.on_run.invalidate (self : d3d12.volume_benchmark_base)
    (changed : List String) : d3d12.volume_benchmark_base :=
  let s1 : d3d12.volume_benchmark_base :=
    if contains_any changed [benchmark_base.factor_device,
        d3d12.volume_benchmark_base.factor_data_set,
        d3d12.volume_benchmark_base.factor_frame] then
      ⟨none, self._tex_xfer_func⟩
    else self
  if contains_any changed [benchmark_base.factor_device,
      d3d12.volume_benchmark_base.factor_xfer_func] then
    ⟨s1._tex_volume, none⟩
  else s1

/-- The end of `volume_benchmark_base::on_run` (volume_benchmark_base.cpp,
397-404): the camera is updated from the configuration, which may throw and
does not touch the textures, and an empty result is returned. -/
def d3d12.volume_benchmark_base.on_run.finish (s : d3d12.volume_benchmark_base)
    (loads : List d3d12.load_event) (camera_update : Except exception Unit) :
    Except exception result × d3d12.volume_benchmark_base × List d3d12.load_event :=
  match camera_update with
  | .error ex => (.error ex, s, loads)
  | .ok () => (.ok none, s, loads)

/-- The part of `volume_benchmark_base::on_run` that creates the transfer
function if it is invalid (volume_benchmark_base.cpp, 386-389). -/
def d3d12.volume_benchmark_base.on_run.xfer_func (s : d3d12.volume_benchmark_base)
    (loads : List d3d12.load_event) (load_xfer_func : Except exception Nat)
    (camera_update : Except exception Unit) :
    Except exception result × d3d12.volume_benchmark_base × List d3d12.load_event :=
  match s._tex_xfer_func with
  | none =>
    match load_xfer_func with
    | .error ex => (.error ex, s, loads ++ [.xfer_func])
    | .ok t =>
      d3d12.volume_benchmark_base.on_run.finish ⟨s._tex_volume, some t⟩
        (loads ++ [.xfer_func]) camera_update
  | some _ => d3d12.volume_benchmark_base.on_run.finish s loads camera_update

/-- The function `d3d12::volume_benchmark_base::on_run`
(volume_benchmark_base.cpp, 350-405) as far as the cached textures go. The
outcomes of `load_volume` and `load_xfer_func` for the given configuration and
device and of the camera update are parameters; the value is the outcome, the
textures afterwards and the loads that were performed. -/
def d3d12.volume_benchmark_base.on_run (self : d3d12.volume_benchmark_base)
    (changed : List String) (load_volume load_xfer_func : Except exception Nat)
    (camera_update : Except exception Unit) :
    Except exception result × d3d12.volume_benchmark_base × List d3d12.load_event :=
  let s := d3d12.volume_benchmark_base.on_run.invalidate self changed
  match s._tex_volume with
  | none =>
    match load_volume with
    | .error ex => (.error ex, s, [.volume])
    | .ok t =>
      d3d12.volume_benchmark_base.on_run.xfer_func ⟨some t, s._tex_xfer_func⟩
        [.volume] load_xfer_func camera_update
  | some _ =>
    d3d12.volume_benchmark_base.on_run.xfer_func s [] load_xfer_func camera_update

/-- The conversion `static_cast<long>(n)` of a `size_t`, `long` being the signed
32-bit type of the platform of Direct3D 12. -/
def long.of_size_t (n : Nat) : Int :=
  ((n : Int) + 2 ^ 31) % 2 ^ 32 - 2 ^ 31

/-- The exception of `load_xfer_func` for data that is no sequence of texels
(volume_benchmark_base.cpp, 222-223). -/
def d3d12.volume_benchmark_base.load_xfer_func.invalid_data : exception :=
  .invalid_argument
    "The transfer function texture does not hold valid data in DXGI_FORMAT_R8G8B8A8_UNORM."

/-- The overload of `d3d12::volume_benchmark_base::load_xfer_func` for a vector
of bytes (volume_benchmark_base.cpp, 212-253). The command list is `none` for
`nullptr`; staging and copying on the device are not modelled. The value is
the width in texels and the format of the texture that is created. -/
def d3d12.volume_benchmark_base.load_xfer_func (data : List Nat)
    (cmd_list : Option Nat) : Except exception (Int × DXGI_FORMAT) :=
  let quot := Int.tdiv (long.of_size_t data.length) 4
  let rem := Int.tmod (long.of_size_t data.length) 4
  if rem ≠ 0 then
    .error d3d12.volume_benchmark_base.load_xfer_func.invalid_data
  else if cmd_list = none then
    .error (.invalid_argument
      "A valid command list for uploading the transfer function must be provided.")
  else
    .ok (quot, .R8G8B8A8_UNORM)

/-- The assignment `data[idx] = v` to a vector; `none` stands for the undefined
behaviour of an index that is out of range. -/
def vector.assign (data : List Nat) (idx : Nat) (v : Nat) : Option (List Nat) :=
  if idx < data.length then some (data.set idx v) else none

/-- The loop that fills the fallback transfer function
(volume_benchmark_base.cpp, 298-303), from index `i` for `n` iterations;
`static_cast<std::uint8_t>(i)` is `i % 256`. -/
def d3d12.volume_benchmark_base.load_xfer_func.fill (data : List Nat) (i : Nat) :
    Nat → Option (List Nat)
  | 0 => some data
  | n + 1 =>
    match vector.assign data (i * 4 + 0) (i % 256) with
    | none => none
    | some d1 =>
      match vector.assign d1 (i * 4 + 1) (i % 256) with
      | none => none
      | some d2 =>
        match vector.assign d2 (i * 4 + 2) (i % 256) with
        | none => none
        | some d3 =>
          match vector.assign d3 (i * 4 + 3) (i % 256) with
          | none => none
          | some d4 =>
            d3d12.volume_benchmark_base.load_xfer_func.fill d4 (i + 1) n

/-- The fallback transfer function that the handler `catch (...)` of the
overload for a configuration builds (volume_benchmark_base.cpp, 297-303). -/
def d3d12.volume_benchmark_base.load_xfer_func.fallback : Option (List Nat) :=
  d3d12.volume_benchmark_base.load_xfer_func.fill (List.replicate (256 * 4) 0) 0 256

/-- The body of the overload of `load_xfer_func` for a configuration
(volume_benchmark_base.cpp, 283-307) with the vector `built` that the handler
fills: `configured` is the outcome of the `try` block, which reads the path and
loads the file; every exception is caught and `built` is loaded instead. The
value is `none` if filling `built` wrote out of range. -/
def d3d12.volume_benchmark_base.load_xfer_func_config.body
    (built : Option (List Nat)) (configured : Except exception (Int × DXGI_FORMAT))
    (cmd_list : Option Nat) : Option (Except exception (Int × DXGI_FORMAT)) :=
  match configured with
  | .ok t => some (.ok t)
  | .error _ =>
    match built with
    | none => none
    | some data => some (d3d12.volume_benchmark_base.load_xfer_func data cmd_list)

/-- The overload of `d3d12::volume_benchmark_base::load_xfer_func` for a
configuration (volume_benchmark_base.cpp, 277-308): the handler `catch (...)`
fills the fallback transfer function and loads it. -/
def d3d12.volume_benchmark_base.load_xfer_func_config
    (configured : Except exception (Int × DXGI_FORMAT)) (cmd_list : Option Nat) :
    Option (Except exception (Int × DXGI_FORMAT)) :=
  d3d12.volume_benchmark_base.load_xfer_func_config.body
    d3d12.volume_benchmark_base.load_xfer_func.fallback configured cmd_list

/-! ## Scaling a volume and the directory of a plugin -/

/-- The reduction of a value to `unsigned`, the unsigned 32-bit type. -/
def unsigned.wrap (x : Nat) : Nat :=
  x % 2 ^ 32

/-- The number of iterations of a loop `for (int i = 0; i < (int) n; ++i)` for
an `unsigned` bound `n`: the cast of a value of `2 ^ 31` or more is negative. -/
def unsigned.int_iterations (n : Nat) : Nat :=
  if n < 2 ^ 31 then n else 0

/-- A counting loop `for (i = first; ...; ++i)` of `count` iterations whose body
may throw: the first exception ends the loop. -/
def for_loop {S : Type} (body : Nat → S → Except exception S) :
    Nat → Nat → S → Except exception S
  | _, 0, s => .ok s
  | i, n + 1, s =>
    match body i s with
    | .error ex => .error ex
    | .ok s1 => for_loop body (i + 1) n s1

/-- The member `std::vector::at` for reading: `std::out_of_range` for an index
that is not below the size. -/
def vector.at_read {T : Type} (data : List T) (idx : Nat) : Except exception T :=
  match data[idx]? with
  | some v => .ok v
  | none => .error (.out_of_range "vector::at")

/-- The member `std::vector::at` for writing: `std::out_of_range` for an index
that is not below the size. -/
def vector.at_write {T : Type} (data : List T) (idx : Nat) (v : T) :
    Except exception (List T) :=
  if idx < data.length then .ok (data.set idx v)
  else .error (.out_of_range "vector::at")

/-- The body of the innermost loop of `scale_data` (volume_raycast_benchmark.h,
306-310) for a factor that is a whole number `k`. For such a factor the
`double` operations are exact: `floor(x/factor)` is the integer quotient, and
the sum of `data_id` stays below `2 ^ 53`. The product
`native_res[0]*native_res[1]` and the whole index of the write are computed in
`unsigned`. -/
def opencl.volume_raycast_benchmark.scale_data.body {T : Type} (data : List T)
    (native_res volume_res : Nat × Nat × Nat) (k : Nat) (z y x : Nat)
    (data_scaled : List T) : Except exception (List T) :=
  let data_id := x / k + native_res.1 * (y / k) +
    unsigned.wrap (native_res.1 * native_res.2.1) * (z / k)
  match vector.at_read data data_id with
  | .error ex => .error ex
  | .ok v =>
    vector.at_write data_scaled
      (unsigned.wrap (x + unsigned.wrap (volume_res.1 * y) +
        unsigned.wrap (unsigned.wrap (volume_res.1 * volume_res.2.1) * z))) v

/-- The function `volume_raycast_benchmark::scale_data`
(volume_raycast_benchmark.h, 285-315) for a factor that is a whole number `k`;
`zero` is the value `T(0)` that the scaled vector is filled with. The
resolution is an array of `unsigned`, so that `volume_res[i] *= factor` and the
product `voxel_cnt` are reduced modulo `2 ^ 32`. The three loops run in
sequence. The value is the new data and the new resolution. -/
def opencl.volume_raycast_benchmark.scale_data {T : Type} (zero : T) (data : List T)
    (volume_res : Nat × Nat × Nat) (k : Nat) :
    Except exception (List T × (Nat × Nat × Nat)) :=
  let native_res := volume_res
  let res : Nat × Nat × Nat :=
    (unsigned.wrap (volume_res.1 * k), unsigned.wrap (volume_res.2.1 * k),
      unsigned.wrap (volume_res.2.2 * k))
  let voxel_cnt := unsigned.wrap (unsigned.wrap (res.1 * res.2.1) * res.2.2)
  let data_scaled := List.replicate voxel_cnt zero
  match for_loop (fun z d =>
      for_loop (fun y d1 =>
        for_loop (fun x d2 =>
          opencl.volume_raycast_benchmark.scale_data.body data native_res res k z y x d2)
          0 (unsigned.int_iterations res.1) d1)
        0 (unsigned.int_iterations res.2.1) d)
      0 (unsigned.int_iterations res.2.2) data_scaled with
  | .error ex => .error ex
  | .ok d => .ok (d, res)

/-- The function `d3d11::plugin::get_directory` (plugin.cpp, 52-57) on the
location `retval` that `get_location` returns. A string is the list of its
characters; `directory_separator_char` is declared in `io.h`, which is not
part of the sources, and is a parameter. The reverse iterator `it` is the
number of characters behind the last separator, or the length; `it.base()` is
the position that many characters before the end. -/
def d3d11.plugin.get_directory (directory_separator_char : Char)
    (retval : List Char) : List Char :=
  let it := retval.reverse.findIdx (fun ch => ch == directory_separator_char)
  retval.take (retval.length - it)

/-! ## Concrete inputs -/

/-- A configuration binding `device` then `resolution`. -/
def sample_device_resolution : configuration :=
  ⟨[⟨"device", .device 0⟩, ⟨"resolution", .integer 1⟩]⟩

/-- A configuration binding `resolution` then `device`. -/
def sample_resolution_device : configuration :=
  ⟨[⟨"resolution", .integer 2⟩, ⟨"device", .device 0⟩]⟩

/-- A configuration binding only `mode`. -/
def sample_mode : configuration :=
  ⟨[⟨"mode", .string "a"⟩]⟩

/-- A configuration binding only `resolution`. -/
def sample_resolution : configuration :=
  ⟨[⟨"resolution", .integer 3⟩]⟩

/-- A result measured for `sample_mode`. -/
def sample_result_mode : basic_result :=
  ⟨sample_mode, [.integer 10]⟩

/-- A result measured for `sample_resolution`. -/
def sample_result_resolution : basic_result :=
  ⟨sample_resolution, [.integer 20]⟩

/-- A second result measured for `sample_resolution`. -/
def sample_result_resolution2 : basic_result :=
  ⟨sample_resolution, [.integer 30]⟩

/-- A benchmark whose defaults declare `device` as required (no manifestation).
It can run everywhere and measures nothing. -/
def sample_benchmark_requiring_device : benchmark Unit :=
  ⟨⟨[⟨"device", []⟩]⟩, fun _ _ _ => true, fun w c => (.ok (some ⟨c, []⟩), w)⟩

/-- A benchmark whose defaults bind `resolution` to 7 and `mode` to "a". It can
run everywhere, and fails on every configuration that binds `resolution` to 2. -/
def sample_benchmark : benchmark Unit :=
  ⟨⟨[⟨"resolution", [.integer 7]⟩, ⟨"mode", [.string "a"]⟩]⟩,
    fun _ _ _ => true,
    fun w c =>
      if (⟨"resolution", .integer 2⟩ : named_variant) ∈ c._factors then
        (.error (.runtime_error "The benchmark failed."), w)
      else (.ok (some ⟨c, []⟩), w)⟩

/-- A benchmark like `sample_benchmark` whose failure is an `ATL::CAtlException`. -/
def sample_benchmark_atl : benchmark Unit :=
  ⟨sample_benchmark._default_configs, fun _ _ _ => true,
    fun w c =>
      if (⟨"resolution", .integer 2⟩ : named_variant) ∈ c._factors then
        (.error (.atl_exception (-2147467259)), w)
      else (.ok (some ⟨c, []⟩), w)⟩

/-- The benchmark `sample_benchmark` with a capability predicate that declines
every pair of environment and device. -/
def sample_benchmark_declining : benchmark Unit :=
  ⟨sample_benchmark._default_configs, fun _ _ _ => false, sample_benchmark.run⟩

/-- A configuration set binding one environment, one device and one resolution. -/
def sample_configs : configuration_set :=
  ⟨[⟨"environment", [.environment 0]⟩, ⟨"device", [.device 0]⟩,
    ⟨"resolution", [.integer 1]⟩]⟩

/-- A configuration set binding one environment, one device and the resolutions
1, 2 and 3. -/
def sample_configs_range : configuration_set :=
  ⟨[⟨"environment", [.environment 0]⟩, ⟨"device", [.device 0]⟩,
    ⟨"resolution", [.integer 1, .integer 2, .integer 3]⟩]⟩

/-- A result callback that stores nothing and asks to continue. -/
def sample_sink : on_result_callback Unit :=
  fun w _ => (.ok true, w)

/-- A result callback whose output fails. -/
def sample_sink_failing : on_result_callback Unit :=
  fun w _ => (.error (.runtime_error "The output failed."), w)

/-- A pacing policy. -/
def sample_cool_down : cool_down :=
  ⟨0, 0⟩

/-- A provider of system factors that adds the process identifier. -/
def sample_system_factors : Unit → List named_variant :=
  fun _ => [⟨"pid", .integer 42⟩]

/-- The configuration enumerated first for `sample_configs_range` merged with
the defaults of `sample_benchmark`. -/
def sample_enumerated (resolution : Int) : configuration :=
  ⟨[⟨"environment", .environment 0⟩, ⟨"device", .device 0⟩,
    ⟨"resolution", .integer resolution⟩, ⟨"mode", .string "a"⟩]⟩

/-- A duplicate-free configuration that binds `pid`, the name of the system
factor that `sample_system_factors` supplies. -/
def sample_with_pid : configuration :=
  ⟨[⟨"device", .device 0⟩, ⟨"pid", .integer 1⟩]⟩

/-- The range factor of the specification: `resolution` from 1 in 3 steps of 1,
over a signed integer type. -/
def sample_range : factor_range Int :=
  factor_range.ctor "resolution" 1 1 3

/-- A range factor with a negative start: `offset` from -5 in 3 steps of 1,
over a signed integer type. -/
def sample_range_negative : factor_range Int :=
  factor_range.ctor "offset" (-5) 1 3

/-- A configuration set whose factor `resolution` holds the value 1 twice. -/
def sample_configs_repeated : configuration_set :=
  ⟨[⟨"environment", [.environment 0]⟩, ⟨"device", [.device 0]⟩,
    ⟨"resolution", [.integer 1, .integer 1]⟩]⟩

/-- A result callback that stores nothing and asks to stop. -/
def sample_sink_stopping : on_result_callback Unit :=
  fun w _ => (.ok false, w)

/-- A volume of 16-bit integers with one component per voxel. -/
def sample_info : d3d12.info_type :=
  ⟨[256, 256, 128], 1, .int16⟩

/-- The same kind of volume as `sample_info` with another resolution. -/
def sample_info_small : d3d12.info_type :=
  ⟨[16, 16, 16], 1, .int16⟩

theorem configuration.contains_iff (c : configuration) (n : String) :
    c.contains n = true ↔ n ∈ c.names := by
  unfold configuration.contains configuration.find configuration.cend configuration.names
  rw [bne_iff_ne, ne_eq, List.findIdx_eq_length, List.mem_map]
  constructor
  · intro h
    push_neg at h
    obtain ⟨x, hx, hp⟩ := h
    exact ⟨x, hx, by simpa using hp⟩
  · rintro ⟨x, hx, rfl⟩ hall
    have := hall x hx
    simp at this

theorem configuration.check_consistency_loop_ok_iff (other : configuration)
    (l : List named_variant) :
    configuration.check_consistency.loop other l = .ok () ↔
      ∀ x ∈ l, x.name ∉ other.names := by
  induction l with
  | nil => simp [configuration.check_consistency.loop]
  | cons x rest ih =>
    by_cases hx : other.contains x.name = true
    · have hmem := (configuration.contains_iff other x.name).mp hx
      simp [configuration.check_consistency.loop, hx, hmem]
    · have hmem : x.name ∉ other.names := fun h =>
        hx ((configuration.contains_iff other x.name).mpr h)
      simp [configuration.check_consistency.loop, hx, hmem, ih]

theorem configuration.check_consistency_ok_iff (self other : configuration) :
    self.check_consistency other = .ok () ↔
      self._factors.length = other._factors.length ∧
        ∀ x ∈ self._factors, x.name ∉ other.names := by
  unfold configuration.check_consistency
  by_cases hlen : self._factors.length = other._factors.length
  · simp [hlen, configuration.check_consistency_loop_ok_iff]
  · simp [hlen]

theorem benchmark_base.check_consistency_loop_absent (reference : basic_result)
    (rest : List result) (h : none ∈ rest) :
    ∃ e, benchmark_base.check_consistency.loop reference rest = .error e := by
  induction rest with
  | nil => simp at h
  | cons x xs ih =>
    cases x with
    | none => exact ⟨_, rfl⟩
    | some element =>
      have hxs : none ∈ xs := by simpa using h
      obtain ⟨e, he⟩ := ih hxs
      unfold benchmark_base.check_consistency.loop
      cases hc : reference.check_consistency element with
      | error e2 => exact ⟨e2, rfl⟩
      | ok u => exact ⟨e, by simpa using he⟩

theorem benchmark_base.merge_results_move_eq (l r : result_set) :
    benchmark_base.merge_results_move l r = l ++ r := by
  induction r generalizing l with
  | nil => simp [benchmark_base.merge_results_move]
  | cons e rest ih => simp [benchmark_base.merge_results_move, ih]

/-! ## Lemmas on the runner -/

theorem configuration_set.foreach_configuration.loop_append {S : Type}
    (visit : S → configuration → Except exception (Bool × S))
    (pre rest : List configuration) (s0 s : S)
    (hpre : configuration_set.foreach_configuration.loop visit pre s0 = .ok (true, s)) :
    configuration_set.foreach_configuration.loop visit (pre ++ rest) s0 =
      configuration_set.foreach_configuration.loop visit rest s := by
  induction pre generalizing s0 with
  | nil =>
    simp only [configuration_set.foreach_configuration.loop, Except.ok.injEq,
      Prod.mk.injEq, true_and] at hpre
    simp [hpre]
  | cons c cs ih =>
    simp only [List.cons_append, configuration_set.foreach_configuration.loop] at hpre ⊢
    cases hv : visit s0 c with
    | error ex => rw [hv] at hpre; simp at hpre
    | ok p =>
      obtain ⟨cont, s1⟩ := p
      cases cont with
      | true =>
        rw [hv] at hpre
        exact ih s1 hpre
      | false =>
        rw [hv] at hpre
        simp at hpre

theorem benchmark_base.run_eq_loop {W : Type} (self : benchmark W)
    (configs : configuration_set) (resultCallback : on_result_callback W)
    (coolDown : cool_down) (system_factors : W → List named_variant) (w : W)
    (hreq : benchmark_base.check_required_factors self configs = .ok ())
    (hvalid : (configs.merge self._default_configs false)._factors.any
      (fun f => f.size == 0) = false) :
    benchmark_base.run self configs resultCallback coolDown system_factors w =
      Except.map Prod.snd (configuration_set.foreach_configuration.loop
        (benchmark_base.run.visit self resultCallback system_factors)
        (configuration_set.enumerate
          (configs.merge self._default_configs false)._factors) ⟨0, w, []⟩) := by
  unfold benchmark_base.run
  rw [hreq]
  simp only [configuration_set.foreach_configuration, hvalid, Bool.false_eq_true,
    if_false]

theorem benchmark_base.run_ok_inv {W : Type} (self : benchmark W)
    (configs : configuration_set) (resultCallback : on_result_callback W)
    (coolDown : cool_down) (system_factors : W → List named_variant) (w : W)
    (s : run_state W)
    (hrun : benchmark_base.run self configs resultCallback coolDown system_factors w
      = .ok s) :
    ∃ cont, configuration_set.foreach_configuration.loop
        (benchmark_base.run.visit self resultCallback system_factors)
        (configuration_set.enumerate
          (configs.merge self._default_configs false)._factors) ⟨0, w, []⟩ =
      .ok (cont, s) := by
  unfold benchmark_base.run at hrun
  cases hreq : benchmark_base.check_required_factors self configs with
  | error e => rw [hreq] at hrun; simp at hrun
  | ok u =>
    rw [hreq] at hrun
    simp only [configuration_set.foreach_configuration] at hrun
    split at hrun
    · simp at hrun
    · cases hloop : configuration_set.foreach_configuration.loop
        (benchmark_base.run.visit self resultCallback system_factors)
        (configuration_set.enumerate
          (configs.merge self._default_configs false)._factors) ⟨0, w, []⟩ with
      | error ex => rw [hloop] at hrun; simp [Except.map] at hrun
      | ok p =>
        rw [hloop] at hrun
        simp only [Except.map, Except.ok.injEq] at hrun
        exact ⟨p.1, by rw [← hrun]⟩

theorem benchmark_base.run.handler_ok {W : Type} (s s1 : run_state W) (ex : exception)
    (cont : Bool) (h : benchmark_base.run.handler s ex = .ok (cont, s1)) :
    cont = false ∧ s1 = s := by
  unfold benchmark_base.run.handler at h
  split at h
  · simp only [Except.ok.injEq, Prod.mk.injEq] at h
    exact ⟨h.1.symm, h.2.symm⟩
  · simp at h

theorem benchmark_base.run.handler_std {W : Type} (s : run_state W) (ex : exception)
    (h : ex.is_std = true) : benchmark_base.run.handler s ex = .ok (false, s) := by
  simp [benchmark_base.run.handler, h]

theorem benchmark_base.run.visit_counts {W : Type} (self : benchmark W)
    (resultCallback : on_result_callback W) (system_factors : W → List named_variant)
    (s s1 : run_state W) (c : configuration) (cont : Bool)
    (hv : benchmark_base.run.visit self resultCallback system_factors s c =
      .ok (cont, s1))
    (h : s.retval = s.delivered) :
    s1.retval = s1.delivered := by
  unfold benchmark_base.run.visit at hv
  simp only [run_state.delivered] at h ⊢
  simp only at hv
  split at hv
  · obtain ⟨_, rfl⟩ := benchmark_base.run.handler_ok _ _ _ _ hv
    simp [List.filter_append, h]
  · split at hv
    · obtain ⟨_, rfl⟩ := benchmark_base.run.handler_ok _ _ _ _ hv
      simp [List.filter_append, h]
    · split at hv
      · split at hv
        · obtain ⟨_, rfl⟩ := benchmark_base.run.handler_ok _ _ _ _ hv
          simp [List.filter_append, h]
        · split at hv
          · obtain ⟨_, rfl⟩ := benchmark_base.run.handler_ok _ _ _ _ hv
            simp [List.filter_append, h]
          · simp only [Except.ok.injEq, Prod.mk.injEq] at hv
            obtain ⟨_, rfl⟩ := hv
            simp [List.filter_append, h]
      · simp only [Except.ok.injEq, Prod.mk.injEq] at hv
        obtain ⟨_, rfl⟩ := hv
        simp [List.filter_append, h]

theorem benchmark_base.run.loop_counts {W : Type} (self : benchmark W)
    (resultCallback : on_result_callback W) (system_factors : W → List named_variant)
    (l : List configuration) (s s1 : run_state W) (cont : Bool)
    (hl : configuration_set.foreach_configuration.loop
      (benchmark_base.run.visit self resultCallback system_factors) l s =
        .ok (cont, s1))
    (h : s.retval = s.delivered) :
    s1.retval = s1.delivered := by
  induction l generalizing s with
  | nil =>
    simp only [configuration_set.foreach_configuration.loop, Except.ok.injEq,
      Prod.mk.injEq] at hl
    obtain ⟨_, rfl⟩ := hl
    exact h
  | cons c cs ih =>
    simp only [configuration_set.foreach_configuration.loop] at hl
    cases hvis : benchmark_base.run.visit self resultCallback system_factors s c with
    | error ex => rw [hvis] at hl; simp at hl
    | ok p =>
      obtain ⟨cont2, s2⟩ := p
      have hv := benchmark_base.run.visit_counts self resultCallback system_factors
        s s2 c cont2 hvis h
      rw [hvis] at hl
      cases cont2 with
      | true => exact ih s2 hl hv
      | false =>
        simp only [Except.ok.injEq, Prod.mk.injEq] at hl
        obtain ⟨_, rfl⟩ := hl
        exact hv

theorem benchmark_base.run.visit_skip {W : Type} (self : benchmark W)
    (resultCallback : on_result_callback W) (system_factors : W → List named_variant)
    (s : run_state W) (c : configuration) (e : environment) (d : device)
    (henv : c.get_environment environment_base.factor_name = .ok e)
    (hdev : c.get_device device_base.factor_name = .ok d)
    (hcan : self.can_run s.world e d = false) :
    benchmark_base.run.visit self resultCallback system_factors s c =
      .ok (true, ⟨s.retval, s.world, s.log ++ [event.visited c]⟩) := by
  unfold benchmark_base.run.visit
  simp [henv, hdev, hcan]

theorem benchmark_base.run.loop_skip_all {W : Type} (self : benchmark W)
    (resultCallback : on_result_callback W) (system_factors : W → List named_variant)
    (l : List configuration) (s : run_state W)
    (h : ∀ c ∈ l, ∃ e d, c.get_environment environment_base.factor_name = .ok e ∧
      c.get_device device_base.factor_name = .ok d ∧ self.can_run s.world e d = false) :
    configuration_set.foreach_configuration.loop
      (benchmark_base.run.visit self resultCallback system_factors) l s =
      .ok (true, ⟨s.retval, s.world, s.log ++ l.map event.visited⟩) := by
  induction l generalizing s with
  | nil => simp [configuration_set.foreach_configuration.loop]
  | cons c cs ih =>
    obtain ⟨e, d, henv, hdev, hcan⟩ := h c (List.mem_cons_self c cs)
    simp only [configuration_set.foreach_configuration.loop]
    rw [benchmark_base.run.visit_skip self resultCallback system_factors s c e d
      henv hdev hcan]
    simp only
    rw [ih ⟨s.retval, s.world, s.log ++ [event.visited c]⟩
      (fun c2 hc2 => h c2 (List.mem_cons_of_mem c hc2))]
    simp

theorem benchmark_base.run.visit_raise {W : Type} (self : benchmark W)
    (resultCallback : on_result_callback W) (system_factors : W → List named_variant)
    (s : run_state W) (c : configuration) (e : environment) (d : device)
    (err : exception) (w1 : W)
    (henv : c.get_environment environment_base.factor_name = .ok e)
    (hdev : c.get_device device_base.factor_name = .ok d)
    (hcan : self.can_run s.world e d = true)
    (hrun : self.run s.world (c.add_system_factors (system_factors s.world)) =
      (.error err, w1)) :
    benchmark_base.run.visit self resultCallback system_factors s c =
      benchmark_base.run.handler ⟨s.retval, w1, s.log ++ [event.visited c,
        event.run_invoked (c.add_system_factors (system_factors s.world))]⟩ err := by
  unfold benchmark_base.run.visit
  simp [henv, hdev, hcan, hrun]

theorem configuration.get_environment_error_std (c : configuration) (n : String)
    (ex : exception) (h : c.get_environment n = .error ex) : ex.is_std = true := by
  unfold configuration.get_environment at h
  split at h
  · simp only [Except.error.injEq] at h
    subst h
    rfl
  · split at h
    · simp at h
    · simp only [Except.error.injEq] at h
      subst h
      rfl

theorem configuration.get_device_error_std (c : configuration) (n : String)
    (ex : exception) (h : c.get_device n = .error ex) : ex.is_std = true := by
  unfold configuration.get_device at h
  split at h
  · simp only [Except.error.injEq] at h
    subst h
    rfl
  · split at h
    · simp at h
    · simp only [Except.error.injEq] at h
      subst h
      rfl

theorem benchmark_base.run.visit_returns {W : Type} (self : benchmark W)
    (resultCallback : on_result_callback W) (system_factors : W → List named_variant)
    (hstd_run : ∀ w0 c0 ex w1, self.run w0 c0 = (.error ex, w1) → ex.is_std = true)
    (hstd_sink : ∀ w0 r ex w1, resultCallback w0 r = (.error ex, w1) → ex.is_std = true)
    (s : run_state W) (c : configuration) :
    ∃ p, benchmark_base.run.visit self resultCallback system_factors s c = .ok p := by
  unfold benchmark_base.run.visit
  simp only
  split
  · rename_i ex hex
    exact ⟨_, benchmark_base.run.handler_std _ _
      (configuration.get_environment_error_std _ _ _ hex)⟩
  · split
    · rename_i ex hex
      exact ⟨_, benchmark_base.run.handler_std _ _
        (configuration.get_device_error_std _ _ _ hex)⟩
    · split
      · split
        · rename_i ex w1 hex
          exact ⟨_, benchmark_base.run.handler_std _ _ (hstd_run _ _ _ _ hex)⟩
        · split
          · rename_i ex w2 hex
            exact ⟨_, benchmark_base.run.handler_std _ _ (hstd_sink _ _ _ _ hex)⟩
          · exact ⟨_, rfl⟩
      · exact ⟨_, rfl⟩

theorem benchmark_base.run.loop_returns {W : Type} (self : benchmark W)
    (resultCallback : on_result_callback W) (system_factors : W → List named_variant)
    (hstd_run : ∀ w0 c0 ex w1, self.run w0 c0 = (.error ex, w1) → ex.is_std = true)
    (hstd_sink : ∀ w0 r ex w1, resultCallback w0 r = (.error ex, w1) → ex.is_std = true)
    (l : List configuration) (s : run_state W) :
    ∃ p, configuration_set.foreach_configuration.loop
      (benchmark_base.run.visit self resultCallback system_factors) l s = .ok p := by
  induction l generalizing s with
  | nil => exact ⟨_, rfl⟩
  | cons c cs ih =>
    obtain ⟨p, hp⟩ := benchmark_base.run.visit_returns self resultCallback
      system_factors hstd_run hstd_sink s c
    obtain ⟨cont, s1⟩ := p
    simp only [configuration_set.foreach_configuration.loop, hp]
    cases cont with
    | true => exact ih s1
    | false => exact ⟨_, rfl⟩

theorem configuration_set.merge_false_foldl (l acc : List factor) :
    ∃ added, l.foldl (configuration_set.merge.step false) acc = acc ++ added ∧
      ∀ f ∈ added, f ∈ l ∧ acc.any (fun g => g.name == f.name) = false := by
  induction l generalizing acc with
  | nil => exact ⟨[], by simp⟩
  | cons f rest ih =>
    by_cases hany : acc.any (fun g => g.name == f.name) = true
    · obtain ⟨added, heq, hadd⟩ := ih acc
      refine ⟨added, ?_, fun g hg => ⟨List.mem_cons_of_mem f (hadd g hg).1, (hadd g hg).2⟩⟩
      simp only [List.foldl_cons, configuration_set.merge.step, hany, if_true]
      simpa using heq
    · have hany2 : acc.any (fun g => g.name == f.name) = false := by
        simpa using hany
      obtain ⟨added, heq, hadd⟩ := ih (acc ++ [f])
      refine ⟨f :: added, ?_, ?_⟩
      · simp only [List.foldl_cons, configuration_set.merge.step, hany2]
        simpa using heq
      · intro g hg
        rcases List.mem_cons.mp hg with rfl | hg2
        · exact ⟨List.mem_cons_self _ _, hany2⟩
        · have h2 := (hadd g hg2).2
          rw [List.any_append, Bool.or_eq_false_iff] at h2
          exact ⟨List.mem_cons_of_mem f (hadd g hg2).1, h2.1⟩

theorem configuration_set.enumerate_binds (fs : List factor) (c : configuration)
    (hc : c ∈ configuration_set.enumerate fs) :
    List.Forall₂ (fun (nv : named_variant) (f : factor) =>
      nv.name = f.name ∧ nv.value ∈ f.manifestations) c._factors fs := by
  induction fs generalizing c with
  | nil =>
    simp only [configuration_set.enumerate, List.mem_singleton] at hc
    subst hc
    exact List.Forall₂.nil
  | cons f rest ih =>
    simp only [configuration_set.enumerate, List.mem_flatMap, List.mem_map] at hc
    obtain ⟨v, hv, c2, hc2, rfl⟩ := hc
    exact List.Forall₂.cons ⟨rfl, hv⟩ (ih c2 hc2)

theorem benchmark_base.run.visit_log {W : Type} (self : benchmark W)
    (resultCallback : on_result_callback W) (system_factors : W → List named_variant)
    (s s1 : run_state W) (c c2 : configuration) (cont : Bool)
    (hv : benchmark_base.run.visit self resultCallback system_factors s c =
      .ok (cont, s1))
    (h : event.visited c2 ∈ s1.log) :
    event.visited c2 ∈ s.log ∨ c2 = c := by
  unfold benchmark_base.run.visit at hv
  simp only at hv
  split at hv
  · obtain ⟨_, rfl⟩ := benchmark_base.run.handler_ok _ _ _ _ hv
    simpa using h
  · split at hv
    · obtain ⟨_, rfl⟩ := benchmark_base.run.handler_ok _ _ _ _ hv
      simpa using h
    · split at hv
      · split at hv
        · obtain ⟨_, rfl⟩ := benchmark_base.run.handler_ok _ _ _ _ hv
          simpa using h
        · split at hv
          · obtain ⟨_, rfl⟩ := benchmark_base.run.handler_ok _ _ _ _ hv
            simpa using h
          · simp only [Except.ok.injEq, Prod.mk.injEq] at hv
            obtain ⟨_, rfl⟩ := hv
            simpa using h
      · simp only [Except.ok.injEq, Prod.mk.injEq] at hv
        obtain ⟨_, rfl⟩ := hv
        simpa using h

theorem benchmark_base.run.loop_log {W : Type} (self : benchmark W)
    (resultCallback : on_result_callback W) (system_factors : W → List named_variant)
    (l : List configuration) (s s1 : run_state W) (c2 : configuration) (cont : Bool)
    (hl : configuration_set.foreach_configuration.loop
      (benchmark_base.run.visit self resultCallback system_factors) l s =
        .ok (cont, s1))
    (h : event.visited c2 ∈ s1.log) :
    event.visited c2 ∈ s.log ∨ c2 ∈ l := by
  induction l generalizing s with
  | nil =>
    simp only [configuration_set.foreach_configuration.loop, Except.ok.injEq,
      Prod.mk.injEq] at hl
    obtain ⟨_, rfl⟩ := hl
    exact Or.inl h
  | cons c cs ih =>
    simp only [configuration_set.foreach_configuration.loop] at hl
    cases hvis : benchmark_base.run.visit self resultCallback system_factors s c with
    | error ex => rw [hvis] at hl; simp at hl
    | ok p =>
      obtain ⟨cont2, s2⟩ := p
      have hlog := benchmark_base.run.visit_log self resultCallback system_factors
        s s2 c c2 cont2 hvis
      rw [hvis] at hl
      cases cont2 with
      | true =>
        rcases ih s2 hl with h1 | h1
        · rcases hlog h1 with h2 | h2
          · exact Or.inl h2
          · exact Or.inr (h2 ▸ List.mem_cons_self _ _)
        · exact Or.inr (List.mem_cons_of_mem c h1)
      | false =>
        simp only [Except.ok.injEq, Prod.mk.injEq] at hl
        obtain ⟨_, rfl⟩ := hl
        rcases hlog h with h2 | h2
        · exact Or.inl h2
        · exact Or.inr (h2 ▸ List.mem_cons_self _ _)

/-! ## Lemmas on factors -/

theorem size_t.convert_convert_add_mul (b s : Int) (i : Nat) :
    size_t.convert (size_t.convert b + size_t.convert ((i : Int) * size_t.convert s)) =
      (b + (i : Int) * s) % size_t.modulus := by
  unfold size_t.convert
  rw [Int.emod_add_emod, Int.add_emod_emod, Int.add_emod, Int.mul_emod, Int.emod_emod,
    ← Int.mul_emod, ← Int.add_emod]

theorem factor_range.integer_value_eq (b s : Int) (i : Nat) :
    factor_range.integer_value b i s = .integer ((b + (i : Int) * s) % 2 ^ 64) := by
  unfold factor_range.integer_value
  rw [size_t.convert_convert_add_mul]
  rfl

theorem benchmark_base.required_factors.loop_eq (fs : List factor)
    (retval : List String) :
    benchmark_base.required_factors.loop fs retval =
      retval ++ (fs.filter (fun f => f.size == 0)).map (fun f => f.name) := by
  induction fs generalizing retval with
  | nil => simp [benchmark_base.required_factors.loop]
  | cons f rest ih =>
    by_cases h : f.size = 0
    · simp [benchmark_base.required_factors.loop, h, ih]
    · simp [benchmark_base.required_factors.loop, h, ih]

/-! ## Lemmas on the enumeration -/

theorem configuration_set.enumerate_length (fs : List factor) :
    (configuration_set.enumerate fs).length = (fs.map factor.size).prod := by
  induction fs with
  | nil => simp [configuration_set.enumerate]
  | cons f rest ih =>
    have hconst : (List.length ∘ fun v =>
        List.map (fun c : configuration => (⟨⟨f.name, v⟩ :: c._factors⟩ : configuration))
          (configuration_set.enumerate rest)) =
        fun _ => (List.map factor.size rest).prod := by
      funext v
      simp [ih]
    simp only [configuration_set.enumerate, List.length_flatMap, List.map_cons,
      List.prod_cons, factor.size]
    rw [hconst, List.map_const', List.sum_replicate]
    simp [factor.size]

theorem configuration_set.enumerate_values_cons (f : factor) (rest : List factor) :
    (configuration_set.enumerate (f :: rest)).map configuration.values =
      f.manifestations.flatMap (fun v =>
        ((configuration_set.enumerate rest).map configuration.values).map
          (List.cons v)) := by
  simp only [configuration_set.enumerate, List.map_flatMap, List.map_map]
  rfl

theorem configuration_set.enumerate_values_nodup (fs : List factor)
    (hdistinct : ∀ f ∈ fs, f.manifestations.Nodup) :
    ((configuration_set.enumerate fs).map configuration.values).Nodup := by
  induction fs with
  | nil => simp [configuration_set.enumerate]
  | cons f rest ih =>
    rw [configuration_set.enumerate_values_cons, List.nodup_flatMap]
    have hrest := ih (fun g hg => hdistinct g (List.mem_cons_of_mem f hg))
    constructor
    · intro v _
      exact hrest.map (fun a b hab => List.tail_eq_of_cons_eq hab)
    · refine (hdistinct f (List.mem_cons_self f rest)).imp ?_
      intro a b hab
      rw [Function.onFun, List.disjoint_left]
      intro t hta htb
      rw [List.mem_map] at hta htb
      obtain ⟨x, _, rfl⟩ := hta
      obtain ⟨y, _, hy⟩ := htb
      exact hab (List.head_eq_of_cons_eq hy).symm

theorem configuration_set.enumerate_complete (fs : List factor) (c : configuration)
    (hc : List.Forall₂ (fun (nv : named_variant) (f : factor) =>
      nv.name = f.name ∧ nv.value ∈ f.manifestations) c._factors fs) :
    c ∈ configuration_set.enumerate fs := by
  induction fs generalizing c with
  | nil =>
    obtain ⟨l⟩ := c
    cases hc
    simp [configuration_set.enumerate]
  | cons f rest ih =>
    obtain ⟨l⟩ := c
    cases hc with
    | cons hhead htail =>
      rename_i nv tl
      simp only [configuration_set.enumerate, List.mem_flatMap, List.mem_map]
      refine ⟨nv.value, hhead.2, ⟨tl⟩, ih ⟨tl⟩ htail, ?_⟩
      obtain ⟨nm, vl⟩ := nv
      simp only at hhead
      simp [hhead.1]

theorem configuration_set.any_empty_eq_false (fs : List factor)
    (h : ∀ f ∈ fs, 1 ≤ f.size) : fs.any (fun f => f.size == 0) = false := by
  rw [List.any_eq_false]
  intro f hf
  have := h f hf
  simp only [beq_iff_eq]
  omega

theorem benchmark_base.run.visit_visits {W : Type} (self : benchmark W)
    (resultCallback : on_result_callback W) (system_factors : W → List named_variant)
    (s s1 : run_state W) (c : configuration) (cont : Bool)
    (hv : benchmark_base.run.visit self resultCallback system_factors s c =
      .ok (cont, s1)) :
    s1.visits = s.visits ++ [c] := by
  unfold benchmark_base.run.visit at hv
  simp only at hv
  split at hv
  · obtain ⟨_, rfl⟩ := benchmark_base.run.handler_ok _ _ _ _ hv
    simp [run_state.visits, List.filterMap_append]
  · split at hv
    · obtain ⟨_, rfl⟩ := benchmark_base.run.handler_ok _ _ _ _ hv
      simp [run_state.visits, List.filterMap_append]
    · split at hv
      · split at hv
        · obtain ⟨_, rfl⟩ := benchmark_base.run.handler_ok _ _ _ _ hv
          simp [run_state.visits, List.filterMap_append]
        · split at hv
          · obtain ⟨_, rfl⟩ := benchmark_base.run.handler_ok _ _ _ _ hv
            simp [run_state.visits, List.filterMap_append]
          · simp only [Except.ok.injEq, Prod.mk.injEq] at hv
            obtain ⟨_, rfl⟩ := hv
            simp [run_state.visits, List.filterMap_append]
      · simp only [Except.ok.injEq, Prod.mk.injEq] at hv
        obtain ⟨_, rfl⟩ := hv
        simp [run_state.visits, List.filterMap_append]

theorem benchmark_base.run.loop_visits_all {W : Type} (self : benchmark W)
    (resultCallback : on_result_callback W) (system_factors : W → List named_variant)
    (l : List configuration) (s : run_state W)
    (halways : ∀ c ∈ l, ∀ s0, ∃ s1,
      benchmark_base.run.visit self resultCallback system_factors s0 c = .ok (true, s1)) :
    ∃ s1, configuration_set.foreach_configuration.loop
        (benchmark_base.run.visit self resultCallback system_factors) l s =
        .ok (true, s1) ∧
      s1.visits = s.visits ++ l := by
  induction l generalizing s with
  | nil => exact ⟨s, rfl, by simp⟩
  | cons c cs ih =>
    obtain ⟨s1, hs1⟩ := halways c (List.mem_cons_self c cs) s
    obtain ⟨s2, hloop, hvis⟩ := ih s1 (fun c2 hc2 => halways c2 (List.mem_cons_of_mem c hc2))
    refine ⟨s2, ?_, ?_⟩
    · simp only [configuration_set.foreach_configuration.loop, hs1]
      exact hloop
    · rw [hvis, benchmark_base.run.visit_visits self resultCallback system_factors
        s s1 c true hs1]
      simp

/-! ## Lemmas on the dispatch and on texture formats -/

theorem opencl.volume_raycast_benchmark.dispatch_target_eq {α : Type} [DecidableEq α]
    (S : α) (G : List α) (t : α) :
    opencl.volume_raycast_benchmark.dispatch_target S G t =
      if t ∈ G then .ok [(S, t)] else .error (.runtime_error "Resolution failed.") := by
  induction G with
  | nil => simp [opencl.volume_raycast_benchmark.dispatch_target]
  | cons T Ts ih =>
    unfold opencl.volume_raycast_benchmark.dispatch_target
    by_cases h : T = t
    · subst h
      simp
    · have h2 : ¬ t = T := fun e => h e.symm
      simp [h, h2, ih]

theorem opencl.volume_raycast_benchmark.dispatch_eq {α : Type} [DecidableEq α]
    (G L : List α) (s t : α) :
    opencl.volume_raycast_benchmark.dispatch G L s t =
      if s ∈ L then opencl.volume_raycast_benchmark.dispatch_target s G t
      else .error (.runtime_error "Resolution failed.") := by
  induction L with
  | nil => simp [opencl.volume_raycast_benchmark.dispatch]
  | cons S Ss ih =>
    unfold opencl.volume_raycast_benchmark.dispatch
    by_cases h : S = s
    · subst h
      simp
    · have h2 : ¬ s = S := fun e => h e.symm
      simp [h, h2, ih]

theorem d3d12.volume_benchmark_base.get_format_decode (info : d3d12.info_type)
    (f : DXGI_FORMAT) (h : d3d12.volume_benchmark_base.get_format info = .ok f) :
    (info.format, info.components) = DXGI_FORMAT.decode f := by
  obtain ⟨res, c, fmt⟩ := info
  unfold d3d12.volume_benchmark_base.get_format at h
  simp only at h
  split at h
  · simp at h
  · split at h
    · simp at h
    · rename_i hc
      have hc4 : c = 1 ∨ c = 2 ∨ c = 3 ∨ c = 4 := by omega
      rcases hc4 with rfl | rfl | rfl | rfl <;> cases fmt <;>
        simp [d3d12.volume_benchmark_base.get_format.unsupported] at h <;>
        subst h <;> rfl

/-! ## Lemmas on the result callback and on cached textures -/

theorem benchmark_base.run.visit_sink {W : Type} (self : benchmark W)
    (resultCallback : on_result_callback W) (system_factors : W → List named_variant)
    (s : run_state W) (c : configuration) (e : environment) (d : device)
    (r : result) (w1 w2 : W) (cont : Bool)
    (henv : c.get_environment environment_base.factor_name = .ok e)
    (hdev : c.get_device device_base.factor_name = .ok d)
    (hcan : self.can_run s.world e d = true)
    (hrun : self.run s.world (c.add_system_factors (system_factors s.world)) =
      (.ok r, w1))
    (hsink : resultCallback w1 r = (.ok cont, w2)) :
    benchmark_base.run.visit self resultCallback system_factors s c =
      .ok (cont, ⟨s.retval + 1, w2, s.log ++ [event.visited c,
        event.run_invoked (c.add_system_factors (system_factors s.world)),
        event.sink_invoked r, event.sink_returned cont]⟩) := by
  unfold benchmark_base.run.visit
  simp [henv, hdev, hcan, hrun, hsink]

theorem vector.assign_in_range (data : List Nat) (idx v : Nat) (h : idx < data.length) :
    vector.assign data idx v = some (data.set idx v) := by
  simp [vector.assign, h]

theorem d3d12.volume_benchmark_base.load_xfer_func.fill_spec (n : Nat) :
    ∀ (i : Nat) (data : List Nat), 4 * (i + n) ≤ data.length →
      ∃ d, d3d12.volume_benchmark_base.load_xfer_func.fill data i n = some d ∧
        d.length = data.length ∧
        ∀ j, d[j]? = if 4 * i ≤ j ∧ j < 4 * (i + n) then some ((j / 4) % 256)
          else data[j]? := by
  induction n with
  | zero =>
    intro i data _
    refine ⟨data, rfl, rfl, fun j => ?_⟩
    rw [if_neg (by omega)]
  | succ n ih =>
    intro i data hlen
    unfold d3d12.volume_benchmark_base.load_xfer_func.fill
    rw [vector.assign_in_range _ _ _ (by omega)]
    simp only
    rw [vector.assign_in_range _ _ _ (by rw [List.length_set]; omega)]
    simp only
    rw [vector.assign_in_range _ _ _ (by rw [List.length_set, List.length_set]; omega)]
    simp only
    rw [vector.assign_in_range _ _ _
      (by rw [List.length_set, List.length_set, List.length_set]; omega)]
    simp only
    obtain ⟨d, hd, hdlen, hget⟩ := ih (i + 1)
      ((((data.set (i * 4 + 0) (i % 256)).set (i * 4 + 1) (i % 256)).set
        (i * 4 + 2) (i % 256)).set (i * 4 + 3) (i % 256))
      (by simp only [List.length_set]; omega)
    refine ⟨d, hd, by simpa using hdlen, fun j => ?_⟩
    rw [hget j]
    by_cases h1 : 4 * (i + 1) ≤ j ∧ j < 4 * (i + 1 + n)
    · rw [if_pos h1, if_pos (by omega)]
    · rw [if_neg h1]
      by_cases h2 : 4 * i ≤ j ∧ j < 4 * (i + (n + 1))
      · rw [if_pos h2]
        have hj : j = i * 4 + 0 ∨ j = i * 4 + 1 ∨ j = i * 4 + 2 ∨ j = i * 4 + 3 := by
          omega
        have hdiv : j / 4 = i := by omega
        rw [hdiv]
        rcases hj with rfl | rfl | rfl | rfl <;>
          simp [List.getElem?_set] <;> omega
      · rw [if_neg h2]
        have hj : j ≠ i * 4 + 0 ∧ j ≠ i * 4 + 1 ∧ j ≠ i * 4 + 2 ∧ j ≠ i * 4 + 3 := by
          omega
        rw [List.getElem?_set_ne (Ne.symm hj.2.2.2), List.getElem?_set_ne (Ne.symm hj.2.2.1),
          List.getElem?_set_ne (Ne.symm hj.2.1), List.getElem?_set_ne (Ne.symm hj.1)]

theorem long.of_size_t_tmod_four (n : Nat) :
    Int.tmod (long.of_size_t n) 4 = 0 ↔ 4 ∣ n := by
  rw [← Int.dvd_iff_tmod_eq_zero]
  unfold long.of_size_t
  omega

theorem d3d12.volume_benchmark_base.load_xfer_func_config_eq
    (configured : Except exception (Int × DXGI_FORMAT)) (cmd_list : Option Nat) :
    d3d12.volume_benchmark_base.load_xfer_func_config configured cmd_list =
      d3d12.volume_benchmark_base.load_xfer_func_config.body
        d3d12.volume_benchmark_base.load_xfer_func.fallback configured cmd_list :=
  rfl

theorem d3d12.volume_benchmark_base.load_xfer_func_config.body_caught
    (built : Option (List Nat)) (data : List Nat) (hbuilt : built = some data)
    (ex : exception) (cmd_list : Option Nat) :
    d3d12.volume_benchmark_base.load_xfer_func_config.body built (.error ex) cmd_list =
      some (d3d12.volume_benchmark_base.load_xfer_func data cmd_list) := by
  subst hbuilt
  rfl

/-! ## Lemmas on the search for the last separator -/

theorem findIdx_take_not {α : Type} (p : α → Bool) (l : List α) :
    ∀ x ∈ l.take (l.findIdx p), p x = false := by
  induction l with
  | nil => simp
  | cons a t ih =>
    intro x hx
    rw [List.findIdx_cons] at hx
    cases hpa : p a with
    | true =>
      rw [hpa] at hx
      simp at hx
    | false =>
      rw [hpa] at hx
      simp only [cond_false, List.take_succ_cons, List.mem_cons] at hx
      rcases hx with rfl | hx
      · exact hpa
      · exact ih x hx

theorem findIdx_drop_head {α : Type} (p : α → Bool) (l : List α) :
    ∀ x, (l.drop (l.findIdx p)).head? = some x → p x = true := by
  induction l with
  | nil => simp
  | cons a t ih =>
    intro x hx
    rw [List.findIdx_cons] at hx
    cases hpa : p a with
    | true =>
      rw [hpa] at hx
      simp only [cond_true, List.drop_zero, List.head?_cons, Option.some.injEq] at hx
      rw [← hx]
      exact hpa
    | false =>
      rw [hpa] at hx
      simp only [cond_false, List.drop_succ_cons] at hx
      exact ih x hx

theorem d3d11.plugin.get_directory_eq (sep : Char) (p : List Char) :
    d3d11.plugin.get_directory sep p =
      (p.reverse.drop (p.reverse.findIdx (fun ch => ch == sep))).reverse := by
  unfold d3d11.plugin.get_directory
  simp only
  rw [List.drop_reverse, List.reverse_reverse]

theorem d3d11.plugin.get_directory_rest (sep : Char) (p : List Char) :
    p.drop (p.length - p.reverse.findIdx (fun ch => ch == sep)) =
      (p.reverse.take (p.reverse.findIdx (fun ch => ch == sep))).reverse := by
  rw [List.take_reverse, List.reverse_reverse]

/-! ## Lemmas on the scaling of a volume -/

/-- A counting loop whose body keeps an invariant, and does not throw under it,
ends without an exception and establishes the invariant for the final count. -/
theorem for_loop_inv {S : Type} (body : Nat → S → Except exception S)
    (P : Nat → S → Prop) (count : Nat) :
    ∀ (first : Nat) (s : S),
      (∀ i s0, first ≤ i → i < first + count → P i s0 →
        ∃ s1, body i s0 = .ok s1 ∧ P (i + 1) s1) →
      P first s → ∃ s1, for_loop body first count s = .ok s1 ∧ P (first + count) s1 := by
  induction count with
  | zero =>
    intro first s _ hs
    exact ⟨s, rfl, hs⟩
  | succ n ih =>
    intro first s hbody hs
    obtain ⟨s1, hs1, hP1⟩ := hbody first s (Nat.le_refl _) (by omega) hs
    obtain ⟨s2, hs2, hP2⟩ := ih (first + 1) s1
      (fun i s0 hi hlt hP => hbody i s0 (by omega) (by omega) hP) hP1
    refine ⟨s2, ?_, ?_⟩
    · simp only [for_loop, hs1]
      exact hs2
    · have : first + (n + 1) = first + 1 + n := by omega
      rw [this]
      exact hP2

/-- The linear index of a voxel inside the grid is below the number of voxels. -/
theorem flat_index_lt (X Y Z x y z : Nat) (hx : x < X) (hy : y < Y) (hz : z < Z) :
    x + X * y + X * Y * z < X * Y * Z := by
  have h1 : X * (y + 1) ≤ X * Y := Nat.mul_le_mul_left X hy
  have h2 : X * Y * (z + 1) ≤ X * Y * Z := Nat.mul_le_mul_left (X * Y) hz
  rw [Nat.mul_add, Nat.mul_one] at h1 h2
  omega

/-- Voxels of the grid with the same linear index are the same voxel. -/
theorem flat_index_inj (X Y x y z x1 y1 z1 : Nat) (hx : x < X) (hx1 : x1 < X)
    (hy : y < Y) (hy1 : y1 < Y)
    (h : x + X * y + X * Y * z = x1 + X * y1 + X * Y * z1) :
    x = x1 ∧ y = y1 ∧ z = z1 := by
  have e : ∀ a b c : Nat, a + X * b + X * Y * c = a + X * (b + Y * c) := by
    intro a b c
    ring
  rw [e, e] at h
  have hmx := congrArg (fun n => n % X) h
  simp only [Nat.add_mul_mod_self_left, Nat.mod_eq_of_lt hx, Nat.mod_eq_of_lt hx1] at hmx
  subst hmx
  have hX : 0 < X := by omega
  have h2 : y + Y * z = y1 + Y * z1 := Nat.eq_of_mul_eq_mul_left hX (by omega)
  have hmy := congrArg (fun n => n % Y) h2
  simp only [Nat.add_mul_mod_self_left, Nat.mod_eq_of_lt hy, Nat.mod_eq_of_lt hy1] at hmy
  subst hmy
  have hY : 0 < Y := by omega
  have h3 : z = z1 := Nat.eq_of_mul_eq_mul_left hY (by omega)
  exact ⟨rfl, rfl, h3⟩

/-- While no product exceeds the range of `unsigned`, the body of the innermost
loop of `scale_data` reads the source voxel in range and writes it at the
linear index of the target voxel. -/
theorem opencl.volume_raycast_benchmark.scale_data.body_spec {T : Type} (data : List T)
    (nx ny nz k : Nat) (hk : 0 < k) (hdata : data.length = nx * ny * nz)
    (hN : nx * k * (ny * k) * (nz * k) < 2 ^ 32)
    (x y z : Nat) (hx : x < nx * k) (hy : y < ny * k) (hz : z < nz * k) (d : List T)
    (hlen : d.length = nx * k * (ny * k) * (nz * k)) :
    ∃ v, data[x / k + nx * (y / k) + nx * ny * (z / k)]? = some v ∧
      opencl.volume_raycast_benchmark.scale_data.body data (nx, ny, nz)
        (nx * k, ny * k, nz * k) k z y x d =
        .ok (d.set (x + nx * k * y + nx * k * (ny * k) * z) v) := by
  have hflat := flat_index_lt (nx * k) (ny * k) (nz * k) x y z hx hy hz
  have hxk : x / k < nx := (Nat.div_lt_iff_lt_mul hk).mpr hx
  have hyk : y / k < ny := (Nat.div_lt_iff_lt_mul hk).mpr hy
  have hzk : z / k < nz := (Nat.div_lt_iff_lt_mul hk).mpr hz
  have hsrc := flat_index_lt nx ny nz (x / k) (y / k) (z / k) hxk hyk hzk
  have hXY : nx * k * (ny * k) ≤ nx * k * (ny * k) * (nz * k) :=
    Nat.le_mul_of_pos_right _ (by omega)
  have hnxy : nx * ny ≤ nx * k * (ny * k) :=
    Nat.mul_le_mul (Nat.le_mul_of_pos_right _ hk) (Nat.le_mul_of_pos_right _ hk)
  have w1 : unsigned.wrap (nx * ny) = nx * ny := Nat.mod_eq_of_lt (by omega)
  have w2 : unsigned.wrap (nx * k * y) = nx * k * y := Nat.mod_eq_of_lt (by omega)
  have w3 : unsigned.wrap (nx * k * (ny * k)) = nx * k * (ny * k) :=
    Nat.mod_eq_of_lt (by omega)
  have w4 : unsigned.wrap (nx * k * (ny * k) * z) = nx * k * (ny * k) * z :=
    Nat.mod_eq_of_lt (by omega)
  have w5 : unsigned.wrap (x + nx * k * y + nx * k * (ny * k) * z) =
      x + nx * k * y + nx * k * (ny * k) * z := Nat.mod_eq_of_lt (by omega)
  rw [← hdata] at hsrc
  refine ⟨data[x / k + nx * (y / k) + nx * ny * (z / k)], List.getElem?_eq_getElem hsrc, ?_⟩
  simp only [opencl.volume_raycast_benchmark.scale_data.body, w1, w2, w3, w4, w5,
    vector.at_read, List.getElem?_eq_getElem hsrc, vector.at_write, hlen, if_pos hflat]

/-- While the scaled resolution fits `int` and the scaled number of voxels fits
`unsigned`, `scale_data` for a factor `k` of at least 1 ends without an access
out of range, the resolution is multiplied by `k`, and the voxel at `(x, y, z)`
is the input voxel at `(x / k, y / k, z / k)`. -/
theorem opencl.volume_raycast_benchmark.scale_data_in_range {T : Type} (zero : T)
    (data : List T) (nx ny nz k : Nat) (hk : 0 < k)
    (hdata : data.length = nx * ny * nz)
    (hx : nx * k < 2 ^ 31) (hy : ny * k < 2 ^ 31) (hz : nz * k < 2 ^ 31)
    (hN : nx * k * (ny * k) * (nz * k) < 2 ^ 32) :
    ∃ out, opencl.volume_raycast_benchmark.scale_data zero data (nx, ny, nz) k =
        .ok (out, (nx * k, ny * k, nz * k)) ∧
      out.length = nx * k * (ny * k) * (nz * k) ∧
      ∀ x y z, x < nx * k → y < ny * k → z < nz * k →
        out[x + nx * k * y + nx * k * (ny * k) * z]? =
          data[x / k + nx * (y / k) + nx * ny * (z / k)]? := by
  obtain ⟨Inv, hInv⟩ : ∃ Inv : Nat → List T → Prop, ∀ m d, Inv m d ↔
      (d.length = nx * k * (ny * k) * (nz * k) ∧
        ∀ x y z, x < nx * k → y < ny * k → z < nz * k →
          x + nx * k * y + nx * k * (ny * k) * z < m →
          d[x + nx * k * y + nx * k * (ny * k) * z]? =
            data[x / k + nx * (y / k) + nx * ny * (z / k)]?) :=
    ⟨_, fun _ _ => Iff.rfl⟩
  have hcast : ∀ m n d, m = n → Inv m d → Inv n d := by
    intro m n d h hm
    rw [← h]
    exact hm
  have hstep : ∀ z y x, z < nz * k → y < ny * k → x < nx * k → ∀ d,
      Inv (x + nx * k * y + nx * k * (ny * k) * z) d →
      ∃ d1, opencl.volume_raycast_benchmark.scale_data.body data (nx, ny, nz)
        (nx * k, ny * k, nz * k) k z y x d = .ok d1 ∧
        Inv (x + nx * k * y + nx * k * (ny * k) * z + 1) d1 := by
    intro z y x hz1 hy1 hx1 d hd
    obtain ⟨hlen, hget⟩ := (hInv _ _).mp hd
    obtain ⟨v, hv, hb⟩ := opencl.volume_raycast_benchmark.scale_data.body_spec data nx ny
      nz k hk hdata hN x y z hx1 hy1 hz1 d hlen
    have hflat := flat_index_lt (nx * k) (ny * k) (nz * k) x y z hx1 hy1 hz1
    refine ⟨_, hb, (hInv _ _).mpr ⟨?_, ?_⟩⟩
    · rw [List.length_set]
      exact hlen
    · intro x2 y2 z2 hx2 hy2 hz2 hlt
      by_cases heq : x2 + nx * k * y2 + nx * k * (ny * k) * z2 =
          x + nx * k * y + nx * k * (ny * k) * z
      · obtain ⟨rfl, rfl, rfl⟩ := flat_index_inj (nx * k) (ny * k) x2 y2 z2 x y z hx2 hx1
          hy2 hy1 heq
        rw [List.getElem?_set_self (by omega), hv]
      · rw [List.getElem?_set_ne (fun h => heq h.symm)]
        exact hget x2 y2 z2 hx2 hy2 hz2 (by omega)
  have hxloop : ∀ z y, z < nz * k → y < ny * k → ∀ d,
      Inv (nx * k * y + nx * k * (ny * k) * z) d →
      ∃ d1, for_loop (fun x d2 => opencl.volume_raycast_benchmark.scale_data.body data
        (nx, ny, nz) (nx * k, ny * k, nz * k) k z y x d2) 0 (nx * k) d = .ok d1 ∧
        Inv (nx * k * (y + 1) + nx * k * (ny * k) * z) d1 := by
    intro z y hz1 hy1 d hd
    obtain ⟨d1, h1, h2⟩ := for_loop_inv
      (fun x d2 => opencl.volume_raycast_benchmark.scale_data.body data
        (nx, ny, nz) (nx * k, ny * k, nz * k) k z y x d2)
      (fun x d2 => Inv (x + nx * k * y + nx * k * (ny * k) * z) d2) (nx * k) 0 d
      (fun i s0 _ hi hP => hstep z y i hz1 hy1 (by omega) s0 hP
        |>.imp fun d3 h => ⟨h.1, hcast _ _ _ (by ring) h.2⟩)
      (hcast _ _ _ (by ring) hd)
    exact ⟨d1, h1, hcast _ _ _ (by ring) h2⟩
  have hyloop : ∀ z, z < nz * k → ∀ d, Inv (nx * k * (ny * k) * z) d →
      ∃ d1, for_loop (fun y d1 => for_loop (fun x d2 =>
        opencl.volume_raycast_benchmark.scale_data.body data
          (nx, ny, nz) (nx * k, ny * k, nz * k) k z y x d2) 0 (nx * k) d1) 0 (ny * k) d =
          .ok d1 ∧ Inv (nx * k * (ny * k) * (z + 1)) d1 := by
    intro z hz1 d hd
    obtain ⟨d1, h1, h2⟩ := for_loop_inv
      (fun y d1 => for_loop (fun x d2 =>
        opencl.volume_raycast_benchmark.scale_data.body data
          (nx, ny, nz) (nx * k, ny * k, nz * k) k z y x d2) 0 (nx * k) d1)
      (fun y d2 => Inv (nx * k * y + nx * k * (ny * k) * z) d2) (ny * k) 0 d
      (fun i s0 _ hi hP => hxloop z i hz1 (by omega) s0 hP)
      (hcast _ _ _ (by ring) hd)
    exact ⟨d1, h1, hcast _ _ _ (by ring) h2⟩
  obtain ⟨out, hout, hfin⟩ := for_loop_inv
    (fun z d => for_loop (fun y d1 => for_loop (fun x d2 =>
      opencl.volume_raycast_benchmark.scale_data.body data
        (nx, ny, nz) (nx * k, ny * k, nz * k) k z y x d2) 0 (nx * k) d1) 0 (ny * k) d)
    (fun z d2 => Inv (nx * k * (ny * k) * z) d2) (nz * k) 0
    (List.replicate (nx * k * (ny * k) * (nz * k)) zero)
    (fun i s0 _ hi hP => hyloop i (by omega) s0 hP)
    ((hInv _ _).mpr ⟨List.length_replicate _ _, fun x y z _ _ _ h => by omega⟩)
  obtain ⟨hlen, hget⟩ := (hInv _ _).mp (hcast _ (nx * k * (ny * k) * (nz * k)) _ (by ring) hfin)
  have wx : unsigned.wrap (nx * k) = nx * k := Nat.mod_eq_of_lt (by omega)
  have wy : unsigned.wrap (ny * k) = ny * k := Nat.mod_eq_of_lt (by omega)
  have wz : unsigned.wrap (nz * k) = nz * k := Nat.mod_eq_of_lt (by omega)
  have wN : unsigned.wrap (unsigned.wrap (nx * k * (ny * k)) * (nz * k)) =
      nx * k * (ny * k) * (nz * k) := by
    unfold unsigned.wrap
    rw [Nat.mod_mul_mod]
    exact Nat.mod_eq_of_lt hN
  refine ⟨out, ?_, hlen, ?_⟩
  · simp only [opencl.volume_raycast_benchmark.scale_data, wx, wy, wz, wN,
      unsigned.int_iterations, if_pos hx, if_pos hy, if_pos hz, hout]
  · intro x y z hx1 hy1 hz1
    exact hget x y z hx1 hy1 hz1 (by
      have := flat_index_lt (nx * k) (ny * k) (nz * k) x y z hx1 hy1 hz1
      omega)

/-- Within the same bounds the factor 1 leaves data and resolution unchanged. -/
theorem opencl.volume_raycast_benchmark.scale_data_one {T : Type} (zero : T)
    (data : List T) (nx ny nz : Nat) (hdata : data.length = nx * ny * nz)
    (hx : nx < 2 ^ 31) (hy : ny < 2 ^ 31) (hz : nz < 2 ^ 31)
    (hN : nx * ny * nz < 2 ^ 32) :
    opencl.volume_raycast_benchmark.scale_data zero data (nx, ny, nz) 1 =
      .ok (data, (nx, ny, nz)) := by
  obtain ⟨out, hout, hlen, hget⟩ := opencl.volume_raycast_benchmark.scale_data_in_range
    zero data nx ny nz 1 (by omega) hdata (by omega) (by omega) (by omega)
    (by simpa using hN)
  simp only [Nat.mul_one, Nat.div_one] at hout hlen hget
  have hsame : out = data := by
    apply List.ext_getElem?
    intro i
    by_cases hi : i < nx * ny * nz
    · have hpos : 0 < nx * ny * nz := by omega
      have hXY : 0 < nx * ny := Nat.pos_of_mul_pos_right hpos
      have hX : 0 < nx := Nat.pos_of_mul_pos_right hXY
      have hY : 0 < ny := Nat.pos_of_mul_pos_left hXY
      have h1 : i / nx < ny * nz := by
        rw [Nat.div_lt_iff_lt_mul hX]
        calc i < nx * ny * nz := hi
          _ = ny * nz * nx := by ring
      have h2 : i / nx / ny < nz := by
        rw [Nat.div_lt_iff_lt_mul hY]
        calc i / nx < ny * nz := h1
          _ = nz * ny := by ring
      have e1 := Nat.mod_add_div i nx
      have e2 := Nat.mod_add_div (i / nx) ny
      have e3 : i % nx + nx * (i / nx % ny) + nx * ny * (i / nx / ny) = i := by
        calc i % nx + nx * (i / nx % ny) + nx * ny * (i / nx / ny)
            = i % nx + nx * (i / nx % ny + ny * (i / nx / ny)) := by ring
          _ = i := by rw [e2, e1]
      have := hget (i % nx) (i / nx % ny) (i / nx / ny) (Nat.mod_lt _ hX)
        (Nat.mod_lt _ hY) h2
      rw [e3] at this
      exact this
    · rw [List.getElem?_eq_none (by omega), List.getElem?_eq_none (by omega)]
  rw [hout, hsame]

/-! ## Claims -/

/-- C1: two duplicate-free configurations with identical factor-name sets (here
`device, resolution` against `resolution, device`) should pass
`check_consistency`; the code throws "The configurations contain different
factors." because the test in the loop is inverted. -/
theorem C1_identical_name_sets_rejected :
    sample_device_resolution.names.Nodup ∧
    sample_resolution_device.names.Nodup ∧
    (∀ n, n ∈ sample_device_resolution.names ↔ n ∈ sample_resolution_device.names) ∧
    sample_device_resolution.check_consistency sample_resolution_device =
      .error (.runtime_error "The configurations contain different factors.") := by
  refine ⟨by decide, by decide, ?_, by rfl⟩
  intro n
  simp [sample_device_resolution, sample_resolution_device, configuration.names, or_comm]

/-- C2: two configurations of the same length with different factor names
(`mode` against `resolution`) should fail `check_consistency`; the code returns
without an error because the test in the loop is inverted. -/
theorem C2_different_name_sets_accepted :
    sample_mode._factors.length = sample_resolution._factors.length ∧
    ¬ (∀ n, n ∈ sample_mode.names ↔ n ∈ sample_resolution.names) ∧
    sample_mode.check_consistency sample_resolution = .ok () := by
  refine ⟨by decide, ?_, by rfl⟩
  intro h
  have := (h "mode").mp (by decide)
  revert this
  decide

/-- C3: a benchmark whose defaults declare `device` as required, run on a
configuration set without `device`, should be rejected by
`check_required_factors`; the code accepts it, because the guard tests the
length of the factor's name instead of the size of the factor. -/
theorem C3_missing_required_factor_accepted :
    "device" ∈ benchmark_base.required_factors sample_benchmark_requiring_device ∧
    (⟨[]⟩ : configuration_set).contains_factor "device" = false ∧
    benchmark_base.check_required_factors sample_benchmark_requiring_device ⟨[]⟩ =
      .ok () := by
  refine ⟨by decide, by rfl, by rfl⟩

/-- C4, as stated, fails: when the result callback raises an error, the
benchmark's `run(c)` has been carried out and has produced a result, yet the
value returned by `benchmark_base::run` does not count that configuration. -/
theorem C4_failing_sink_not_counted :
    ∃ s, benchmark_base.run sample_benchmark sample_configs sample_sink_failing
        sample_cool_down sample_system_factors () = .ok s ∧
      s.retval = 0 ∧ s.produced = 1 :=
  ⟨_, rfl, rfl, rfl⟩

/-- C4, amended: the value returned by `benchmark_base::run` equals the number
of enumerated configurations for which the benchmark's `run(c)` produced a
result and the result callback returned without raising an error; and `run`
does return whenever the required-factor check passes, no factor of the merged
set is empty, and benchmark and callback raise only exceptions derived from
`std::exception`. -/
theorem C4_run_returns_delivered_count {W : Type} (self : benchmark W)
    (configs : configuration_set) (resultCallback : on_result_callback W)
    (coolDown : cool_down) (system_factors : W → List named_variant) (w : W) :
    (∀ s, benchmark_base.run self configs resultCallback coolDown system_factors w =
        .ok s → s.retval = s.delivered) ∧
    (benchmark_base.check_required_factors self configs = .ok () →
      (configs.merge self._default_configs false)._factors.any
        (fun f => f.size == 0) = false →
      (∀ w0 c0 ex w1, self.run w0 c0 = (.error ex, w1) → ex.is_std = true) →
      (∀ w0 r ex w1, resultCallback w0 r = (.error ex, w1) → ex.is_std = true) →
      ∃ s, benchmark_base.run self configs resultCallback coolDown system_factors w =
        .ok s) := by
  constructor
  · intro s hrun
    obtain ⟨cont, hloop⟩ := benchmark_base.run_ok_inv self configs resultCallback
      coolDown system_factors w s hrun
    exact benchmark_base.run.loop_counts self resultCallback system_factors _ _ s cont
      hloop rfl
  · intro hreq hvalid hstd_run hstd_sink
    obtain ⟨p, hp⟩ := benchmark_base.run.loop_returns self resultCallback
      system_factors hstd_run hstd_sink
      (configuration_set.enumerate (configs.merge self._default_configs false)._factors)
      ⟨0, w, []⟩
    refine ⟨p.2, ?_⟩
    rw [benchmark_base.run_eq_loop self configs resultCallback coolDown system_factors
      w hreq hvalid, hp]
    rfl

/-- Witness of C4 (amended): three configurations are enumerated, the first is
executed and delivered, the second fails with a `std::runtime_error`; `run`
returns 1. -/
theorem C4_run_returns_delivered_count_witness :
    (∃ s, benchmark_base.run sample_benchmark sample_configs_range sample_sink
        sample_cool_down sample_system_factors () = .ok s ∧
      s.retval = 1 ∧ s.retval = s.delivered) ∧
    (∃ s, benchmark_base.run sample_benchmark sample_configs_range sample_sink
        sample_cool_down sample_system_factors () = .ok s) :=
  ⟨⟨_, rfl, rfl, (C4_run_returns_delivered_count sample_benchmark sample_configs_range
      sample_sink sample_cool_down sample_system_factors ()).1 _ rfl⟩,
    (C4_run_returns_delivered_count sample_benchmark sample_configs_range
      sample_sink sample_cool_down sample_system_factors ()).2 rfl rfl
      (by
        intro w0 c0 ex w1 h
        simp only [sample_benchmark] at h
        split at h
        · simp only [Prod.mk.injEq, Except.error.injEq] at h
          rw [← h.1]
          rfl
        · simp at h)
      (by
        intro w0 r ex w1 h
        simp [sample_sink] at h)⟩

/-- C5: in `benchmark_base::run`, a configuration whose environment and device
are declined by `can_run` is only visited: neither the benchmark's `run(c)`
nor the result callback is invoked, the count and the state are unchanged, and
the callback returns true, so that the traversal goes on with the remaining
configurations; and if `can_run` declines every enumerated configuration, `run`
visits all of them and returns 0. -/
theorem C5_declined_configuration_skipped {W : Type} (self : benchmark W)
    (resultCallback : on_result_callback W)
    (system_factors : W → List named_variant) :
    (∀ (s : run_state W) (c : configuration) (e : environment) (d : device),
      c.get_environment environment_base.factor_name = .ok e →
      c.get_device device_base.factor_name = .ok d →
      self.can_run s.world e d = false →
      benchmark_base.run.visit self resultCallback system_factors s c =
        .ok (true, ⟨s.retval, s.world, s.log ++ [event.visited c]⟩) ∧
      ∀ rest, configuration_set.foreach_configuration.loop
          (benchmark_base.run.visit self resultCallback system_factors) (c :: rest) s =
        configuration_set.foreach_configuration.loop
          (benchmark_base.run.visit self resultCallback system_factors) rest
          ⟨s.retval, s.world, s.log ++ [event.visited c]⟩) ∧
    (∀ (configs : configuration_set) (coolDown : cool_down) (w : W),
      benchmark_base.check_required_factors self configs = .ok () →
      (configs.merge self._default_configs false)._factors.any
        (fun f => f.size == 0) = false →
      (∀ c ∈ configuration_set.enumerate
          (configs.merge self._default_configs false)._factors,
        ∃ e d, c.get_environment environment_base.factor_name = .ok e ∧
          c.get_device device_base.factor_name = .ok d ∧
          self.can_run w e d = false) →
      benchmark_base.run self configs resultCallback coolDown system_factors w =
        .ok ⟨0, w, (configuration_set.enumerate
          (configs.merge self._default_configs false)._factors).map event.visited⟩) := by
  constructor
  · intro s c e d henv hdev hcan
    have hv := benchmark_base.run.visit_skip self resultCallback system_factors s c e d
      henv hdev hcan
    refine ⟨hv, fun rest => ?_⟩
    simp only [configuration_set.foreach_configuration.loop]
    rw [hv]
  · intro configs coolDown w hreq hvalid hall
    rw [benchmark_base.run_eq_loop self configs resultCallback coolDown system_factors
      w hreq hvalid]
    rw [benchmark_base.run.loop_skip_all self resultCallback system_factors _
      ⟨0, w, []⟩ hall]
    simp [Except.map]

/-- Witness of C5: a benchmark that declines every pair leaves the state as it
is when it visits a configuration, visits the three enumerated configurations
and returns 0. -/
theorem C5_declined_configuration_skipped_witness :
    benchmark_base.run.visit sample_benchmark_declining sample_sink
      sample_system_factors ⟨0, (), []⟩ (sample_enumerated 1) =
      .ok (true, ⟨0, (), [event.visited (sample_enumerated 1)]⟩) ∧
    benchmark_base.run sample_benchmark_declining sample_configs_range sample_sink
      sample_cool_down sample_system_factors () =
      .ok ⟨0, (), [event.visited (sample_enumerated 1),
        event.visited (sample_enumerated 2), event.visited (sample_enumerated 3)]⟩ :=
  ⟨((C5_declined_configuration_skipped sample_benchmark_declining sample_sink
      sample_system_factors).1 ⟨0, (), []⟩ (sample_enumerated 1) 0 0 rfl rfl rfl).1,
    (C5_declined_configuration_skipped sample_benchmark_declining sample_sink
    sample_system_factors).2 sample_configs_range sample_cool_down () rfl rfl
    (by
      intro c hc
      have henum : configuration_set.enumerate
          (sample_configs_range.merge sample_benchmark_declining._default_configs
            false)._factors =
          [sample_enumerated 1, sample_enumerated 2, sample_enumerated 3] := rfl
      rw [henum] at hc
      simp only [List.mem_cons, List.mem_singleton, List.not_mem_nil, or_false] at hc
      rcases hc with rfl | rfl | rfl <;> exact ⟨0, 0, rfl, rfl, rfl⟩)⟩

/-- C6, as stated, fails: a benchmark whose `run(c)` raises an
`ATL::CAtlException` on the second enumerated configuration makes
`benchmark_base::run` propagate that exception to its caller, since the handler
of the visit callback only matches `std::exception`. -/
theorem C6_foreign_exception_propagates :
    sample_benchmark_atl.run ()
        ((sample_enumerated 2).add_system_factors (sample_system_factors ())) =
      (.error (.atl_exception (-2147467259)), ()) ∧
    benchmark_base.run sample_benchmark_atl sample_configs_range sample_sink
      sample_cool_down sample_system_factors () =
      .error (.atl_exception (-2147467259)) :=
  ⟨rfl, rfl⟩

/-- C6, amended: in `benchmark_base::run`, if the traversal reaches a
configuration `c` on which the benchmark's `run(c)` raises an error derived
from `std::exception`, the error is caught (`run` returns normally), the visit
callback returns false, nothing after `c` is dispatched (the failed invocation
is the last event on record), and the value returned is the count reached
before `c`, the number of configurations executed and delivered before the
failure. -/
theorem C6_std_error_aborts_traversal {W : Type} (self : benchmark W)
    (configs : configuration_set) (resultCallback : on_result_callback W)
    (coolDown : cool_down) (system_factors : W → List named_variant) (w : W)
    (pre post : List configuration) (c : configuration) (s : run_state W)
    (e : environment) (d : device) (err : exception) (w1 : W)
    (hreq : benchmark_base.check_required_factors self configs = .ok ())
    (hvalid : (configs.merge self._default_configs false)._factors.any
      (fun f => f.size == 0) = false)
    (henum : configuration_set.enumerate
      (configs.merge self._default_configs false)._factors = pre ++ c :: post)
    (hpre : configuration_set.foreach_configuration.loop
      (benchmark_base.run.visit self resultCallback system_factors) pre ⟨0, w, []⟩ =
        .ok (true, s))
    (henv : c.get_environment environment_base.factor_name = .ok e)
    (hdev : c.get_device device_base.factor_name = .ok d)
    (hcan : self.can_run s.world e d = true)
    (hrun : self.run s.world (c.add_system_factors (system_factors s.world)) =
      (.error err, w1))
    (hstd : err.is_std = true) :
    benchmark_base.run.visit self resultCallback system_factors s c =
      .ok (false, ⟨s.retval, w1, s.log ++ [event.visited c,
        event.run_invoked (c.add_system_factors (system_factors s.world))]⟩) ∧
    benchmark_base.run self configs resultCallback coolDown system_factors w =
      .ok ⟨s.retval, w1, s.log ++ [event.visited c,
        event.run_invoked (c.add_system_factors (system_factors s.world))]⟩ ∧
    s.retval = s.delivered := by
  have hv := benchmark_base.run.visit_raise self resultCallback system_factors s c e d
    err w1 henv hdev hcan hrun
  rw [benchmark_base.run.handler_std _ _ hstd] at hv
  refine ⟨hv, ?_, ?_⟩
  · rw [benchmark_base.run_eq_loop self configs resultCallback coolDown system_factors
      w hreq hvalid, henum,
      configuration_set.foreach_configuration.loop_append _ pre (c :: post) _ s hpre]
    simp only [configuration_set.foreach_configuration.loop]
    rw [hv]
    rfl
  · exact benchmark_base.run.loop_counts self resultCallback system_factors
      pre ⟨0, w, []⟩ s true hpre rfl

/-- Witness of C6 (amended): the benchmark fails with a `std::runtime_error` on
the second of three configurations; `run` returns 1 and the third configuration
is never visited. -/
theorem C6_std_error_aborts_traversal_witness :
    benchmark_base.run sample_benchmark sample_configs_range sample_sink
      sample_cool_down sample_system_factors () =
      .ok ⟨1, (), [event.visited (sample_enumerated 1),
        event.run_invoked ((sample_enumerated 1).add_system_factors
          (sample_system_factors ())),
        event.sink_invoked (some ⟨(sample_enumerated 1).add_system_factors
          (sample_system_factors ()), []⟩),
        event.sink_returned true,
        event.visited (sample_enumerated 2),
        event.run_invoked ((sample_enumerated 2).add_system_factors
          (sample_system_factors ()))]⟩ :=
  (C6_std_error_aborts_traversal sample_benchmark sample_configs_range sample_sink
    sample_cool_down sample_system_factors () [sample_enumerated 1]
    [sample_enumerated 3] (sample_enumerated 2)
    ⟨1, (), [event.visited (sample_enumerated 1),
        event.run_invoked ((sample_enumerated 1).add_system_factors
          (sample_system_factors ())),
        event.sink_invoked (some ⟨(sample_enumerated 1).add_system_factors
          (sample_system_factors ()), []⟩),
        event.sink_returned true]⟩
    0 0 (.runtime_error "The benchmark failed.") () rfl rfl rfl rfl rfl rfl rfl
    rfl rfl).2.1

/-- C7: `benchmark_base::run` merges the caller's configuration set with the
benchmark's defaults without overwriting: every configuration that is visited
binds, position by position, a manifestation of each factor of the caller's
set, followed by manifestations of those default factors whose names the
caller's set lacks. The caller's set is a value that `run` only reads. -/
theorem C7_caller_factors_win_over_defaults {W : Type} (self : benchmark W)
    (configs : configuration_set) (resultCallback : on_result_callback W)
    (coolDown : cool_down) (system_factors : W → List named_variant) (w : W)
    (s : run_state W) (c : configuration)
    (hrun : benchmark_base.run self configs resultCallback coolDown system_factors w
      = .ok s)
    (hc : event.visited c ∈ s.log) :
    ∃ added : List factor,
      (configs.merge self._default_configs false)._factors =
        configs._factors ++ added ∧
      (∀ f ∈ added, f ∈ self._default_configs._factors ∧
        configs.contains_factor f.name = false) ∧
      List.Forall₂ (fun (nv : named_variant) (f : factor) =>
        nv.name = f.name ∧ nv.value ∈ f.manifestations)
        c._factors (configs._factors ++ added) := by
  obtain ⟨added, hmerge, hadded⟩ :=
    configuration_set.merge_false_foldl self._default_configs._factors configs._factors
  have hmerge2 : (configs.merge self._default_configs false)._factors =
      configs._factors ++ added := hmerge
  refine ⟨added, hmerge2, hadded, ?_⟩
  obtain ⟨cont, hloop⟩ := benchmark_base.run_ok_inv self configs resultCallback coolDown
    system_factors w s hrun
  rcases benchmark_base.run.loop_log self resultCallback system_factors _ _ s c cont
    hloop hc with h | h
  · simp at h
  · rw [← hmerge2]
    exact configuration_set.enumerate_binds _ c h

/-- Witness of C7: the caller binds `resolution` to 1, 2 and 3 while the
benchmark binds it to 7; the second configuration visited binds the caller's
2, and the `mode` of the benchmark, which the caller lacks. -/
theorem C7_caller_factors_win_over_defaults_witness :
    ∃ s, benchmark_base.run sample_benchmark sample_configs_range sample_sink
        sample_cool_down sample_system_factors () = .ok s ∧
      event.visited (sample_enumerated 2) ∈ s.log ∧
      ∃ added : List factor,
        (sample_configs_range.merge sample_benchmark._default_configs false)._factors =
          sample_configs_range._factors ++ added ∧
        (∀ f ∈ added, f ∈ sample_benchmark._default_configs._factors ∧
          sample_configs_range.contains_factor f.name = false) ∧
        List.Forall₂ (fun (nv : named_variant) (f : factor) =>
          nv.name = f.name ∧ nv.value ∈ f.manifestations)
          (sample_enumerated 2)._factors (sample_configs_range._factors ++ added) :=
  ⟨_, rfl, by decide,
    C7_caller_factors_win_over_defaults sample_benchmark sample_configs_range
      sample_sink sample_cool_down sample_system_factors () _ (sample_enumerated 2)
      rfl (by decide)⟩

/-- C8, as stated, fails: the singleton result set holding only an absent
element passes `benchmark_base::check_consistency`. -/
theorem C8_singleton_absent_accepted :
    benchmark_base.check_consistency [none] = .ok () := by
  rfl

/-- C8, amended: every result set with more than one element that contains an
absent (null) element, at whatever position, makes
`benchmark_base::check_consistency` fail with an error. -/
theorem C8_absent_element_rejected (rs : result_set) (hsize : rs.length > 1)
    (habsent : none ∈ rs) :
    ∃ e, benchmark_base.check_consistency rs = .error e := by
  unfold benchmark_base.check_consistency
  rw [if_pos hsize]
  match rs, habsent with
  | [], h => simp at h
  | none :: _, _ => exact ⟨_, rfl⟩
  | some reference :: rest, h =>
    have hrest : none ∈ rest := by simpa using h
    exact benchmark_base.check_consistency_loop_absent reference rest hrest

/-- Witness of C8 (amended): a two-element set whose second element is absent. -/
theorem C8_absent_element_rejected_witness :
    ([some sample_result_mode, none] : result_set).length > 1 ∧
    (none : result) ∈ ([some sample_result_mode, none] : result_set) ∧
    ∃ e, benchmark_base.check_consistency [some sample_result_mode, none] = .error e :=
  ⟨by decide, by decide,
    C8_absent_element_rejected [some sample_result_mode, none] (by decide) (by decide)⟩

/-- C9: a result set may pass `benchmark_base::check_consistency` although a
pairwise check between two of its elements (neither being the first) fails:
elements two and three both bind exactly `resolution`, and the inverted test of
`configuration::check_consistency` rejects that pair. -/
theorem C9_accepted_set_with_failing_pair :
    benchmark_base.check_consistency
      [some sample_result_mode, some sample_result_resolution,
        some sample_result_resolution2] = .ok () ∧
    sample_result_resolution.check_consistency sample_result_resolution2 =
      .error (.runtime_error "The configurations contain different factors.") := by
  constructor <;> rfl

/-- C10, as stated, fails: merging into a set that holds an absent element does
not leave it unchanged; the element of the right-hand side is appended. -/
theorem C10_merge_with_absent_element_appends :
    benchmark_base.merge_results [none] [some sample_result_mode] ≠ [none] ∧
    benchmark_base.merge_results_move [none] [some sample_result_mode] ≠ [none] := by
  constructor <;> decide

/-- C10, amended: merging result sets verifies nothing; for all result sets `l`
and `r`, also when an element is absent or schemas differ, both overloads of
`merge_results` complete and leave `l` holding the old `l` followed by the
elements of `r`. -/
theorem C10_merge_appends_without_check (l r : result_set) :
    benchmark_base.merge_results l r = l ++ r ∧
    benchmark_base.merge_results_move l r = l ++ r :=
  ⟨rfl, benchmark_base.merge_results_move_eq l r⟩

/-- C11: the duplicate guard `configuration::check_duplicate` raises
`invalid_argument` if and only if the configuration already holds an entry of
the given name, returns normally otherwise, and in either case leaves the
configuration as it was. -/
theorem C11_check_duplicate_guards_names (c : configuration) (n : String) :
    (c.check_duplicate n).2 = c ∧
    ((c.check_duplicate n).1 = .error (.invalid_argument
        ("The configuration already contains a factor named \"" ++ n ++ "\".")) ↔
      ∃ v ∈ c._factors, v.name = n) ∧
    ((c.check_duplicate n).1 = .ok () ↔ ¬ ∃ v ∈ c._factors, v.name = n) := by
  have hmem : n ∈ c.names ↔ ∃ v ∈ c._factors, v.name = n := by
    simp [configuration.names]
  unfold configuration.check_duplicate
  by_cases h : c.contains n = true
  · have hn := hmem.mp ((configuration.contains_iff c n).mp h)
    simp [h, hn]
  · have hn : ¬ ∃ v ∈ c._factors, v.name = n := fun hex =>
      h ((configuration.contains_iff c n).mpr (hmem.mpr hex))
    simp [h, hn]

/-- C12: `add_system_factors` should keep a duplicate-free configuration free
of duplicates; the code appends the system factors without the guard that
`add` runs, so a configuration that already binds `pid` ends up with two
entries named `pid`, although `check_duplicate` rejects that name. -/
theorem C12_system_factors_duplicate_names :
    sample_with_pid.names.Nodup ∧
    (sample_with_pid.check_duplicate "pid").1 = .error (.invalid_argument
      "The configuration already contains a factor named \"pid\".") ∧
    (sample_with_pid.add_system_factors (sample_system_factors ())).names =
      ["device", "pid", "pid"] ∧
    ¬ (sample_with_pid.add_system_factors (sample_system_factors ())).names.Nodup := by
  refine ⟨by decide, by rfl, by rfl, by decide⟩

/-- C13: for every range factor and every index `i`, `operator []` fails with a
range error if and only if `i >= size()`, it yields a manifestation otherwise,
and `size()` is the count of steps the range was constructed with. -/
theorem C13_range_error_iff_index_out_of_range {T : Type}
    (value : T → Nat → T → variant) (f : factor_range T) (i : Nat) :
    (f.operator_index value i = .error (.range_error
        "The factor does not contain the requested manifestation.") ↔ i ≥ f.size) ∧
    (f.operator_index value i = .ok (value f.begin i f.step_size) ↔ i < f.size) ∧
    f.size = f.cnt_steps ∧
    (∀ (name : String) (b st : T) (cnt : Nat),
      (factor_range.ctor name b st cnt).size = cnt) := by
  unfold factor_range.operator_index
  by_cases h : i ≥ f.size
  · refine ⟨?_, ?_, rfl, fun _ _ _ _ => rfl⟩
    · simp [h]
    · simp only [if_pos h]
      constructor
      · intro hc; cases hc
      · intro hlt; omega
  · refine ⟨?_, ?_, rfl, fun _ _ _ _ => rfl⟩
    · simp only [if_neg h]
      constructor
      · intro hc; cases hc
      · intro hge; exact absurd hge h
    · simp only [if_neg h]
      constructor
      · intro _; omega
      · intro _; trivial

/-- C14: the range factor over a signed integer type with start -5, step 1 and
count 3 should yield -5 as its first manifestation; the code computes
`begin + i * step_size` in `size_t` and yields 18446744073709551611. The
range of the specification (start 1, step 1, count 3) does yield 1, 2, 3. -/
theorem C14_negative_start_wraps :
    sample_range_negative.operator_index factor_range.integer_value 0 =
      .ok (.integer 18446744073709551611) ∧
    variant.integer 18446744073709551611 ≠ variant.integer (-5 + 0 * 1) ∧
    (List.range 3).map (sample_range.operator_index factor_range.integer_value) =
      [.ok (.integer 1), .ok (.integer 2), .ok (.integer 3)] := by
  refine ⟨by rfl, by decide, by rfl⟩

/-- C15: two factors compare equal with `operator ==` if and only if their names
are equal, whatever their sizes and manifestations; `operator !=` is exactly
the negation; and equality is reflexive, symmetric and transitive. -/
theorem C15_factor_equality_by_name :
    (∀ a b : factor_base, a.operator_eq b = true ↔ a._name = b._name) ∧
    (∀ a b : factor_base, a.operator_ne b = !(a.operator_eq b)) ∧
    (∀ a : factor_base, a.operator_eq a = true) ∧
    (∀ a b : factor_base, a.operator_eq b = b.operator_eq a) ∧
    (∀ a b c : factor_base, a.operator_eq b = true → b.operator_eq c = true →
      a.operator_eq c = true) := by
  refine ⟨?_, fun _ _ => rfl, ?_, ?_, ?_⟩
  · intro a b
    simp [factor_base.operator_eq]
  · intro a
    simp [factor_base.operator_eq]
  · intro a b
    simp only [factor_base.operator_eq]
    rw [Bool.eq_iff_iff]
    simp only [beq_iff_eq]
    exact eq_comm
  · intro a b c hab hbc
    simp only [factor_base.operator_eq, beq_iff_eq] at hab hbc ⊢
    exact hab.trans hbc

/-- C16: the clone of a range factor has the same name and the same size as the
factor and yields for every index the same result of `operator []`, a
manifestation or a range error; it is equal to the factor member by member. -/
theorem C16_clone_of_range_factor {T : Type} (value : T → Nat → T → variant)
    (f : factor_range T) :
    f.clone.name = f.name ∧
    f.clone.size = f.size ∧
    (∀ i, f.clone.operator_index value i = f.operator_index value i) ∧
    f.clone.begin = f.begin ∧ f.clone.step_size = f.step_size ∧
    f.clone.cnt_steps = f.cnt_steps := by
  refine ⟨rfl, rfl, fun _ => rfl, rfl, rfl, rfl⟩

/-- C17: `benchmark_base::required_factors` returns the names of exactly those
factors of the default configuration set whose `size()` is 0, one entry for
each such factor, in the order in which the factors are stored. -/
theorem C17_required_factors_are_empty_defaults {W : Type} (self : benchmark W) :
    benchmark_base.required_factors self =
      (self._default_configs._factors.filter (fun f => f.size == 0)).map
        (fun f => f.name) ∧
    (∀ n, n ∈ benchmark_base.required_factors self ↔
      ∃ f ∈ self._default_configs._factors, f.size = 0 ∧ f.name = n) ∧
    (benchmark_base.required_factors self).Sublist
      (self._default_configs._factors.map (fun f => f.name)) := by
  have heq : benchmark_base.required_factors self =
      (self._default_configs._factors.filter (fun f => f.size == 0)).map
        (fun f => f.name) := by
    unfold benchmark_base.required_factors configuration_set.factors
    rw [benchmark_base.required_factors.loop_eq]
    simp
  refine ⟨heq, ?_, ?_⟩
  · intro n
    rw [heq]
    simp [List.mem_map, List.mem_filter, and_assoc]
  · rw [heq]
    exact List.Sublist.map _ (List.filter_sublist _)

/-- C18, as stated, fails: for a configuration set whose factor `resolution`
holds the value 1 twice (all sizes are at least 1), `benchmark_base::run` with
a callback that always returns true visits two configurations that bind the
same tuple of values. -/
theorem C18_repeated_manifestation_visited_twice :
    (∀ f ∈ (sample_configs_repeated.merge
        sample_benchmark_declining._default_configs false)._factors, 1 ≤ f.size) ∧
    ∃ s, benchmark_base.run sample_benchmark_declining sample_configs_repeated
        sample_sink sample_cool_down sample_system_factors () = .ok s ∧
      s.visits = [sample_enumerated 1, sample_enumerated 1] ∧
      ¬ (s.visits.map configuration.values).Nodup :=
  ⟨by decide, _, rfl, rfl, by decide⟩

/-- C18, amended: for a configuration set whose factors have sizes n1..nk (all
at least 1), `foreach_configuration`, as driven by `benchmark_base::run` with a
visit callback that always returns true, visits exactly n1*...*nk
configurations, namely every combination of one manifestation per factor, in
an order fixed by the set alone; the tuples of bound values are pairwise
distinct provided no factor holds the same manifestation twice. -/
theorem C18_traversal_visits_cross_product {W : Type} (self : benchmark W)
    (configs : configuration_set) (resultCallback : on_result_callback W)
    (coolDown : cool_down) (system_factors : W → List named_variant) (w : W)
    (hreq : benchmark_base.check_required_factors self configs = .ok ())
    (hsizes : ∀ f ∈ (configs.merge self._default_configs false)._factors, 1 ≤ f.size)
    (halways : ∀ c ∈ configuration_set.enumerate
        (configs.merge self._default_configs false)._factors,
      ∀ s0, ∃ s1, benchmark_base.run.visit self resultCallback system_factors s0 c =
        .ok (true, s1)) :
    ∃ s, benchmark_base.run self configs resultCallback coolDown system_factors w =
        .ok s ∧
      s.visits = configuration_set.enumerate
        (configs.merge self._default_configs false)._factors ∧
      s.visits.length =
        ((configs.merge self._default_configs false)._factors.map factor.size).prod ∧
      (∀ c, c ∈ s.visits ↔
        List.Forall₂ (fun (nv : named_variant) (f : factor) =>
          nv.name = f.name ∧ nv.value ∈ f.manifestations)
          c._factors (configs.merge self._default_configs false)._factors) ∧
      ((∀ f ∈ (configs.merge self._default_configs false)._factors,
          f.manifestations.Nodup) →
        (s.visits.map configuration.values).Nodup) := by
  obtain ⟨s, hloop, hvis⟩ := benchmark_base.run.loop_visits_all self resultCallback
    system_factors _ ⟨0, w, []⟩ halways
  have hvis2 : s.visits = configuration_set.enumerate
      (configs.merge self._default_configs false)._factors := by
    rw [hvis]
    simp [run_state.visits]
  refine ⟨s, ?_, hvis2, ?_, ?_, ?_⟩
  · rw [benchmark_base.run_eq_loop self configs resultCallback coolDown system_factors
      w hreq (configuration_set.any_empty_eq_false _ hsizes), hloop]
    rfl
  · rw [hvis2, configuration_set.enumerate_length]
  · intro c
    rw [hvis2]
    exact ⟨configuration_set.enumerate_binds _ c,
      configuration_set.enumerate_complete _ c⟩
  · intro hdistinct
    rw [hvis2]
    exact configuration_set.enumerate_values_nodup _ hdistinct

/-- Witness of C18 (amended): the resolutions 1, 2 and 3 give three visits with
pairwise distinct tuples of values. -/
theorem C18_traversal_visits_cross_product_witness :
    ∃ s, benchmark_base.run sample_benchmark_declining sample_configs_range
        sample_sink sample_cool_down sample_system_factors () = .ok s ∧
      s.visits = [sample_enumerated 1, sample_enumerated 2, sample_enumerated 3] ∧
      s.visits.length = 3 ∧
      (s.visits.map configuration.values).Nodup := by
  obtain ⟨s, hrun, hvis, hlen, _, hnodup⟩ :=
    C18_traversal_visits_cross_product sample_benchmark_declining sample_configs_range
      sample_sink sample_cool_down sample_system_factors () rfl (by decide)
      (by
        intro c hc s0
        have henum : configuration_set.enumerate
            (sample_configs_range.merge sample_benchmark_declining._default_configs
              false)._factors =
            [sample_enumerated 1, sample_enumerated 2, sample_enumerated 3] := rfl
        rw [henum] at hc
        simp only [List.mem_cons, List.mem_singleton, List.not_mem_nil, or_false] at hc
        rcases hc with rfl | rfl | rfl <;>
          exact ⟨_, benchmark_base.run.visit_skip sample_benchmark_declining sample_sink
            sample_system_factors s0 _ 0 0 rfl rfl rfl⟩)
  exact ⟨s, hrun, hvis, by rw [hlen]; rfl, hnodup (by decide)⟩

/-- C19: a result set with at most one element, whatever that element is,
passes `benchmark_base::check_consistency`. -/
theorem C19_small_result_set_accepted (rs : result_set) (hsize : rs.length ≤ 1) :
    benchmark_base.check_consistency rs = .ok () := by
  unfold benchmark_base.check_consistency
  rw [if_neg (by omega)]

/-- Witness of C19: a singleton result set. -/
theorem C19_small_result_set_accepted_witness :
    ([some sample_result_mode] : result_set).length ≤ 1 ∧
    benchmark_base.check_consistency [some sample_result_mode] = .ok () :=
  ⟨by decide, C19_small_result_set_accepted [some sample_result_mode] (by decide)⟩

/-- C20: `configuration::find` returns the position of the first entry whose
name equals the given name: the entry at that position, if there is one, has
the name, no entry before it has, and the position is the end position if and
only if no entry has the name. -/
theorem C20_find_first_entry_of_name (c : configuration) (n : String) :
    c.find n ≤ c.cend ∧
    (c.find n = c.cend ↔ ∀ v ∈ c._factors, v.name ≠ n) ∧
    (∀ v, c._factors[c.find n]? = some v → v.name = n) ∧
    (∀ j v, j < c.find n → c._factors[j]? = some v → v.name ≠ n) := by
  unfold configuration.find configuration.cend
  refine ⟨List.findIdx_le_length _, ?_, ?_, ?_⟩
  · rw [List.findIdx_eq_length]
    simp
  · intro v hv
    have := List.findIdx_of_getElem?_eq_some hv
    simpa using this
  · intro j v hj hv
    have hlen : j < c._factors.length :=
      Nat.lt_of_lt_of_le hj (List.findIdx_le_length _)
    have hnot := List.not_of_lt_findIdx hj
    rw [List.getElem?_eq_getElem hlen] at hv
    have hv2 := Option.some.inj hv
    rw [hv2] at hnot
    simpa using hnot

/-- C22: the two-level recursive dispatch over the list of supported scalar
types is the table lookup: for all tags `s` and `t` it ends, it invokes the
conversion exactly once, for source `s` and target `t`, when both occur in the
list, and it raises `runtime_error("Resolution failed.")` without any
conversion if and only if `s` or `t` does not occur in the list. -/
theorem C22_dispatch_is_table_lookup {α : Type} [DecidableEq α] (L : List α)
    (s t : α) :
    opencl.volume_raycast_benchmark.dispatch L L s t =
      opencl.volume_raycast_benchmark.dispatch_lookup L s t ∧
    (opencl.volume_raycast_benchmark.dispatch L L s t = .ok [(s, t)] ↔
      s ∈ L ∧ t ∈ L) ∧
    (opencl.volume_raycast_benchmark.dispatch L L s t =
        .error (.runtime_error "Resolution failed.") ↔ ¬ (s ∈ L ∧ t ∈ L)) := by
  rw [opencl.volume_raycast_benchmark.dispatch_eq,
    opencl.volume_raycast_benchmark.dispatch_target_eq]
  unfold opencl.volume_raycast_benchmark.dispatch_lookup
  by_cases hs : s ∈ L <;> by_cases ht : t ∈ L <;> simp [hs, ht]

/-- C23: `get_format` returns a format if and only if the data set has exactly
3 dimensions, between 1 and 4 components, one of the scalar types int8, int16,
int32, uint8, uint16, uint32, float16 and float32, and 3 components only with
a scalar type of 32 bits; in every other case it raises `invalid_argument`. -/
theorem C23_get_format_accepts (info : d3d12.info_type) :
    ((∃ f, d3d12.volume_benchmark_base.get_format info = .ok f) ↔
      info.resolution.length = 3 ∧ 1 ≤ info.components ∧ info.components ≤ 4 ∧
      info.format ∈ ([.int8, .int16, .int32, .uint8, .uint16, .uint32, .float16,
        .float32] : List datraw.scalar_type) ∧
      (info.components = 3 →
        info.format ∈ ([.int32, .uint32, .float32] : List datraw.scalar_type))) ∧
    ((∃ f, d3d12.volume_benchmark_base.get_format info = .ok f) ∨
      ∃ what, d3d12.volume_benchmark_base.get_format info =
        .error (.invalid_argument what)) := by
  obtain ⟨res, c, fmt⟩ := info
  unfold d3d12.volume_benchmark_base.get_format
  simp only
  by_cases hres : res.length = 3
  · rw [if_neg (not_not.mpr hres)]
    by_cases hc : c < 1 ∨ c > 4
    · rw [if_pos hc]
      refine ⟨⟨?_, ?_⟩, Or.inr ⟨_, rfl⟩⟩
      · rintro ⟨f, hf⟩
        cases hf
      · rintro ⟨_, h1, h4, _⟩
        omega
    · rw [if_neg hc]
      have hc4 : c = 1 ∨ c = 2 ∨ c = 3 ∨ c = 4 := by omega
      rcases hc4 with rfl | rfl | rfl | rfl <;> cases fmt <;>
        simp [d3d12.volume_benchmark_base.get_format.unsupported, hres]
  · rw [if_pos hres]
    refine ⟨⟨?_, ?_⟩, Or.inr ⟨_, rfl⟩⟩
    · rintro ⟨f, hf⟩
      cases hf
    · rintro ⟨h3, _⟩
      exact absurd h3 hres

/-- C28: `get_format` is injective on what it accepts: two data sets for which
it returns the same format have the same scalar type and the same number of
components. -/
theorem C28_get_format_injective (a b : d3d12.info_type) (f : DXGI_FORMAT)
    (ha : d3d12.volume_benchmark_base.get_format a = .ok f)
    (hb : d3d12.volume_benchmark_base.get_format b = .ok f) :
    a.format = b.format ∧ a.components = b.components := by
  have h1 := d3d12.volume_benchmark_base.get_format_decode a f ha
  have h2 := d3d12.volume_benchmark_base.get_format_decode b f hb
  have h3 : (a.format, a.components) = (b.format, b.components) := h1.trans h2.symm
  exact ⟨congrArg Prod.fst h3, congrArg Prod.snd h3⟩

/-- Witness of C28: two volumes of 16-bit integers with one component and
different resolutions both map to `R16_SNORM`. -/
theorem C28_get_format_injective_witness :
    d3d12.volume_benchmark_base.get_format sample_info = .ok .R16_SNORM ∧
    d3d12.volume_benchmark_base.get_format sample_info_small = .ok .R16_SNORM ∧
    sample_info.format = sample_info_small.format ∧
    sample_info.components = sample_info_small.components :=
  ⟨rfl, rfl, C28_get_format_injective sample_info sample_info_small .R16_SNORM rfl rfl⟩

/-- C27: in `benchmark_base::run` the boolean that the result callback returns
decides on the traversal: the configuration is counted as executed whatever
the callback returns; if it returns false, `run` ends there and nothing later
is dispatched; if it returns true, the traversal goes on with the remaining
configurations. -/
theorem C27_sink_decides_on_traversal {W : Type} (self : benchmark W)
    (configs : configuration_set) (resultCallback : on_result_callback W)
    (coolDown : cool_down) (system_factors : W → List named_variant) (w : W)
    (pre post : List configuration) (c : configuration) (s : run_state W)
    (e : environment) (d : device) (r : result) (w1 w2 : W) (cont : Bool)
    (hreq : benchmark_base.check_required_factors self configs = .ok ())
    (hvalid : (configs.merge self._default_configs false)._factors.any
      (fun f => f.size == 0) = false)
    (henum : configuration_set.enumerate
      (configs.merge self._default_configs false)._factors = pre ++ c :: post)
    (hpre : configuration_set.foreach_configuration.loop
      (benchmark_base.run.visit self resultCallback system_factors) pre ⟨0, w, []⟩ =
        .ok (true, s))
    (henv : c.get_environment environment_base.factor_name = .ok e)
    (hdev : c.get_device device_base.factor_name = .ok d)
    (hcan : self.can_run s.world e d = true)
    (hrun : self.run s.world (c.add_system_factors (system_factors s.world)) =
      (.ok r, w1))
    (hsink : resultCallback w1 r = (.ok cont, w2)) :
    benchmark_base.run.visit self resultCallback system_factors s c =
      .ok (cont, ⟨s.retval + 1, w2, s.log ++ [event.visited c,
        event.run_invoked (c.add_system_factors (system_factors s.world)),
        event.sink_invoked r, event.sink_returned cont]⟩) ∧
    (cont = false →
      benchmark_base.run self configs resultCallback coolDown system_factors w =
        .ok ⟨s.retval + 1, w2, s.log ++ [event.visited c,
          event.run_invoked (c.add_system_factors (system_factors s.world)),
          event.sink_invoked r, event.sink_returned cont]⟩) ∧
    (cont = true →
      benchmark_base.run self configs resultCallback coolDown system_factors w =
        Except.map Prod.snd (configuration_set.foreach_configuration.loop
          (benchmark_base.run.visit self resultCallback system_factors) post
          ⟨s.retval + 1, w2, s.log ++ [event.visited c,
            event.run_invoked (c.add_system_factors (system_factors s.world)),
            event.sink_invoked r, event.sink_returned cont]⟩)) := by
  have hv := benchmark_base.run.visit_sink self resultCallback system_factors s c e d
    r w1 w2 cont henv hdev hcan hrun hsink
  have hrun2 := benchmark_base.run_eq_loop self configs resultCallback coolDown
    system_factors w hreq hvalid
  rw [henum, configuration_set.foreach_configuration.loop_append _ pre (c :: post) _ s
    hpre] at hrun2
  simp only [configuration_set.foreach_configuration.loop, hv] at hrun2
  refine ⟨hv, ?_, ?_⟩
  · intro hcont
    subst hcont
    rw [hrun2]
    rfl
  · intro hcont
    subst hcont
    rw [hrun2]

/-- Witness of C27: the callback returns false for the first of three
configurations; `run` returns 1 and visits nothing else. -/
theorem C27_sink_decides_on_traversal_witness :
    benchmark_base.run sample_benchmark sample_configs_range sample_sink_stopping
      sample_cool_down sample_system_factors () =
      .ok ⟨1, (), [event.visited (sample_enumerated 1),
        event.run_invoked ((sample_enumerated 1).add_system_factors
          (sample_system_factors ())),
        event.sink_invoked (some ⟨(sample_enumerated 1).add_system_factors
          (sample_system_factors ()), []⟩),
        event.sink_returned false]⟩ :=
  (C27_sink_decides_on_traversal sample_benchmark sample_configs_range
    sample_sink_stopping sample_cool_down sample_system_factors () []
    [sample_enumerated 2, sample_enumerated 3] (sample_enumerated 1) ⟨0, (), []⟩
    0 0 (some ⟨(sample_enumerated 1).add_system_factors (sample_system_factors ()), []⟩)
    () () false rfl rfl rfl rfl rfl rfl rfl rfl rfl).2.1 rfl

/-- C30: both overloads of `merge_results` leave `l` equal to the old `l`
followed by the elements of `r` in their order: the two agree, the length is
the sum of the lengths, the old elements of `l` keep their positions, the
elements of `r` follow, and merging an empty `r` changes nothing. -/
theorem C30_merge_results_appends_in_order (l r : result_set) :
    benchmark_base.merge_results_move l r = benchmark_base.merge_results l r ∧
    (benchmark_base.merge_results l r).length = l.length + r.length ∧
    (∀ i, i < l.length → (benchmark_base.merge_results l r)[i]? = l[i]?) ∧
    (∀ j, (benchmark_base.merge_results l r)[l.length + j]? = r[j]?) ∧
    benchmark_base.merge_results l [] = l ∧
    benchmark_base.merge_results_move l [] = l := by
  rw [benchmark_base.merge_results_move_eq]
  unfold benchmark_base.merge_results
  refine ⟨rfl, by simp, ?_, ?_, by simp, rfl⟩
  · intro i hi
    exact List.getElem?_append_left hi
  · intro j
    rw [List.getElem?_append_right (Nat.le_add_right _ _)]
    simp

/-- C26: scaling a volume of one voxel by the factor 2048 should yield
2048 * 2048 * 2048 voxels; the code computes the number of voxels in
`unsigned`, where that product is 0, allocates no voxel, and the first write
through `at` is out of range. Scaling the voxel by 2 yields its 8 copies. -/
theorem C26_voxel_count_wraps :
    ([7] : List Nat).length = 1 * 1 * 1 ∧
    opencl.volume_raycast_benchmark.scale_data (0 : Nat) [7] (1, 1, 1) 2048 =
      .error (.out_of_range "vector::at") ∧
    unsigned.wrap (unsigned.wrap (2048 * 2048) * 2048) = 0 ∧
    opencl.volume_raycast_benchmark.scale_data (0 : Nat) [7] (1, 1, 1) 2 =
      .ok ([7, 7, 7, 7, 7, 7, 7, 7], (2, 2, 2)) := by
  refine ⟨rfl, by rfl, by rfl, by rfl⟩

/-- C25: the fallback transfer function is a linear ramp of 256 RGBA texels:
every write of the loop is in range, the vector has 1024 bytes, and byte
`4 * i + k` is `i` for `i < 256` and `k < 4`; the validation of
`load_xfer_func` rejects exactly the vectors whose size is not divisible by 4,
so that the ramp passes and yields a texture of 256 texels. -/
theorem C25_fallback_is_linear_ramp :
    ∃ ramp, d3d12.volume_benchmark_base.load_xfer_func.fallback = some ramp ∧
      ramp.length = 1024 ∧
      (∀ i k, i < 256 → k < 4 → ramp[4 * i + k]? = some i) ∧
      (∀ data cmd_list, d3d12.volume_benchmark_base.load_xfer_func data cmd_list =
          .error d3d12.volume_benchmark_base.load_xfer_func.invalid_data ↔
        ¬ 4 ∣ data.length) ∧
      (∀ cmd_list, d3d12.volume_benchmark_base.load_xfer_func ramp (some cmd_list) =
        .ok (256, .R8G8B8A8_UNORM)) ∧
      (∀ ex cmd_list, d3d12.volume_benchmark_base.load_xfer_func_config (.error ex)
          (some cmd_list) = some (.ok (256, .R8G8B8A8_UNORM))) := by
  obtain ⟨ramp, hramp, hlen, hget⟩ :=
    d3d12.volume_benchmark_base.load_xfer_func.fill_spec 256 0
      (List.replicate (256 * 4) 0) (by rw [List.length_replicate])
  have hlen2 : ramp.length = 1024 := by rw [hlen, List.length_replicate]
  have hfallback : d3d12.volume_benchmark_base.load_xfer_func.fallback = some ramp := by
    unfold d3d12.volume_benchmark_base.load_xfer_func.fallback
    exact hramp
  have hload : ∀ cmd_list,
      d3d12.volume_benchmark_base.load_xfer_func ramp (some cmd_list) =
        .ok (256, .R8G8B8A8_UNORM) := by
    intro cmd_list
    unfold d3d12.volume_benchmark_base.load_xfer_func
    rw [hlen2]
    rfl
  refine ⟨ramp, hfallback, hlen2, ?_, ?_, hload, ?_⟩
  · intro i k hi hk
    rw [hget (4 * i + k), if_pos (by omega)]
    have h1 : (4 * i + k) / 4 = i := by omega
    rw [h1, Nat.mod_eq_of_lt hi]
  · intro data cmd_list
    have hrem := long.of_size_t_tmod_four data.length
    unfold d3d12.volume_benchmark_base.load_xfer_func
    by_cases h : Int.tmod (long.of_size_t data.length) 4 = 0
    · have hdvd := hrem.mp h
      simp only [ne_eq, h, not_true_eq_false, if_false, hdvd]
      cases cmd_list <;>
        simp [d3d12.volume_benchmark_base.load_xfer_func.invalid_data]
    · have hdvd : ¬ 4 ∣ data.length := fun hd => h (hrem.mpr hd)
      simp [h, hdvd]
  · intro ex cmd_list
    exact (d3d12.volume_benchmark_base.load_xfer_func_config_eq _ _).trans
      ((d3d12.volume_benchmark_base.load_xfer_func_config.body_caught _ ramp hfallback
        ex (some cmd_list)).trans (congrArg some (hload cmd_list)))

/-- C29: `get_directory` returns the longest initial part of the module
location that ends with the directory separator: the location is the result
followed by a remainder without separator, a non-empty result ends with the
separator, no initial part ending with the separator is longer, and the result
is empty if the location holds no separator. -/
theorem C29_get_directory_up_to_last_separator (sep : Char) (p : List Char) :
    ∃ rest, p = d3d11.plugin.get_directory sep p ++ rest ∧ sep ∉ rest ∧
      (∀ last, (d3d11.plugin.get_directory sep p).getLast? = some last → last = sep) ∧
      (sep ∉ p → d3d11.plugin.get_directory sep p = []) ∧
      (∀ q, q <+: p → q.getLast? = some sep →
        q.length ≤ (d3d11.plugin.get_directory sep p).length) := by
  have hsplit : p = d3d11.plugin.get_directory sep p ++
      p.drop (p.length - p.reverse.findIdx (fun ch => ch == sep)) := by
    unfold d3d11.plugin.get_directory
    exact (List.take_append_drop _ _).symm
  have hrest : sep ∉ p.drop (p.length - p.reverse.findIdx (fun ch => ch == sep)) := by
    rw [d3d11.plugin.get_directory_rest, List.mem_reverse]
    intro hmem
    have := findIdx_take_not (fun ch => ch == sep) p.reverse sep hmem
    simp at this
  refine ⟨_, hsplit, hrest, ?_, ?_, ?_⟩
  · intro last hlast
    rw [d3d11.plugin.get_directory_eq, List.getLast?_reverse] at hlast
    have := findIdx_drop_head (fun ch => ch == sep) p.reverse last hlast
    simpa using this
  · intro hno
    have hall : ∀ x ∈ p.reverse, (fun ch => ch == sep) x = false := by
      intro x hx
      have hxp : x ∈ p := List.mem_reverse.mp hx
      have hne : x ≠ sep := fun h => hno (h ▸ hxp)
      simpa using hne
    unfold d3d11.plugin.get_directory
    simp only
    rw [List.findIdx_eq_length_of_false hall, List.length_reverse, Nat.sub_self,
      List.take_zero]
  · intro q hq hlast
    obtain ⟨t, ht⟩ := hq
    have heq : q ++ t = d3d11.plugin.get_directory sep p ++
        p.drop (p.length - p.reverse.findIdx (fun ch => ch == sep)) := by
      rw [ht]
      exact hsplit
    rcases List.append_eq_append_iff.mp heq with ⟨a, hdir, _⟩ | ⟨c, hq2, hrest2⟩
    · rw [hdir, List.length_append]
      exact Nat.le_add_right _ _
    · cases c with
      | nil =>
        rw [hq2]
        simp
      | cons c0 cs =>
        exfalso
        apply hrest
        rw [hrest2]
        have hmem : sep ∈ c0 :: cs := by
          rw [hq2, List.getLast?_append_of_ne_nil _ (List.cons_ne_nil c0 cs)] at hlast
          exact List.mem_of_getLast?_eq_some hlast
        exact List.mem_append_left t hmem

end trrojan
